import Mathlib

/-!
Verification of the simulation core of the cat-game repository
(src/game.py): a shallow embedding of the per-frame update step
(Game.update), the fire command (Game.fire_bullet), the reset
(Game.reset) and the run-loop cooldown tick, over exact rational
arithmetic.  Randomness (the process-global random module in the
source) is embedded as an injected stream of rationals consumed in
draw order, each draw clamped to the support of the distribution the
source samples; the transcendental functions the source uses
(math.sin, math.cos, math.hypot) are embedded as an injected function
table, since no verified property depends on their values.
-/

namespace CatGame

/-! ### Configuration constants (game.py lines 22-44) -/

def SCREEN_W : ℚ := 480
def SCREEN_H : ℚ := 640
def PLAYER_SPEED : ℚ := 320
def PLAYER_W : ℚ := 36
def PLAYER_H : ℚ := 24
def PLAYER_Y : ℚ := SCREEN_H - 64
def PLAYER_COOLDOWN : ℚ := 11/50
def BULLET_SPEED : ℚ := 480
def BULLET_W : ℚ := 4
def BULLET_H : ℚ := 10
def ENEMY_MIN_SPEED : ℚ := 70
def ENEMY_MAX_SPEED : ℚ := 160
def ENEMY_SPAWN_INTERVAL_START : ℚ := 19/20
def ENEMY_SPAWN_INTERVAL_MIN : ℚ := 7/20
def POWERUP_SPAWN_CHANCE : ℚ := 1/25
def POWERUP_DURATION : ℚ := 8
def BOSS_APPEAR_SCORE : ℚ := 300

/-- clamp(v, a, b) of game.py line 131: max(a, min(b, v)). -/
def clamp (v a b : ℚ) : ℚ := max a (min b v)

/-- Python int() applied to a float: truncation toward zero. -/
def pyInt (q : ℚ) : ℤ := if 0 ≤ q then ⌊q⌋ else ⌈q⌉

/-- The transcendental functions used by the source, injected as data:
sin2pi t stands for math.sin(t * 2 * math.pi) (sinusoidal enemies,
game.py line 482), sinA and cosA for math.sin / math.cos on the boss
fan angles (lines 530-531), hypot for math.hypot (line 507).  No
claim verified here depends on their values. -/
structure MathOracle where
  sin2pi : ℚ → ℚ
  sinA : ℚ → ℚ
  cosA : ℚ → ℚ
  hypot : ℚ → ℚ → ℚ

/-- A trivial oracle instance, used for concrete executions whose course
never depends on the injected functions. -/
def mo0 : MathOracle := ⟨fun _ => 0, fun _ => 0, fun _ => 1, fun _ _ => 0⟩

/-! ### The injected random stream.  Each draw consumes one rational and
clamps it into the support of the distribution sampled at that site. -/

/-- random.uniform(a, b): one stream value clamped into the interval. -/
def rUniform (a b : ℚ) (src : List ℚ) : ℚ × List ℚ :=
  (clamp (src.headD a) a b, src.tail)

/-- random.random(): one stream value clamped into the unit interval. -/
def r01 (src : List ℚ) : ℚ × List ℚ :=
  (clamp (src.headD 0) 0 1, src.tail)

/-! ### Entity data (game.py lines 73-126) -/

/-- Bullet dataclass (line 73). -/
structure Bullet where
  x : ℚ
  y : ℚ
  dy : ℚ
  w : ℚ
  h : ℚ
  deriving DecidableEq, Repr

/-- The kind tag together with the kind-specific entries of the extra
dict of the Enemy dataclass (lines 92-94 and 393-401): kind 0
straight, kind 1 sine (amp, freq, base_x), kind 2 zigzag (hz_speed,
dir, switch_time, since_switch). -/
inductive EnemyKind
  | straight
  | sine (amp freq base_x : ℚ)
  | zigzag (hz_speed dir switch_time since_switch : ℚ)
  deriving DecidableEq, Repr

/-- Enemy dataclass (line 86). -/
structure Enemy where
  x : ℚ
  y : ℚ
  r : ℚ
  speed : ℚ
  kind : EnemyKind
  spawn_time : ℚ
  can_shoot : Bool
  shoot_timer : ℚ
  shoot_interval : ℚ
  deriving DecidableEq, Repr

/-- EnemyBullet dataclass (line 100). -/
structure EnemyBullet where
  x : ℚ
  y : ℚ
  dx : ℚ
  dy : ℚ
  r : ℚ
  deriving DecidableEq, Repr

/-- The kind strings of the PowerUp dataclass (line 113). -/
inductive PKind
  | rapid
  | shield
  | spread
  deriving DecidableEq, Repr

/-- PowerUp dataclass (line 109). -/
structure PowerUp where
  x : ℚ
  y : ℚ
  kind : PKind
  r : ℚ
  deriving DecidableEq, Repr

/-- Boss dataclass (line 117). -/
structure Boss where
  x : ℚ
  y : ℚ
  r : ℚ
  hp : ℤ
  vx : ℚ
  shoot_timer : ℚ
  shoot_interval : ℚ
  deriving DecidableEq, Repr

/-- Discrete events, one per sound/terminal site of the source:
fired = play("shoot") in fire_bullet (line 665); enemyDestroyed =
play("explode") on a bullet-enemy kill (line 552); bossHit =
play("hit") (line 568); bossDestroyed = play("explode") on boss death
(line 572); shieldAbsorb = play("power") on an enemy bullet absorbed
by the shield (line 590); gameOver = the terminal transition (lines
592-596 and 613-618); contactKill = play("explode") on a shielded
enemy contact (line 611); powerupCollected = play("power") (line
634); bossSpawn = spawn_boss creating the boss (line 413). -/
inductive Ev
  | fired
  | enemyDestroyed
  | bossHit
  | bossDestroyed
  | shieldAbsorb
  | gameOver
  | contactKill
  | powerupCollected
  | bossSpawn
  deriving DecidableEq, Repr

/-- The whole mutable simulation state owned by the Game object
(fields assigned in Game.reset, lines 337-364). -/
structure GameState where
  player_x : ℚ
  player_y : ℚ
  player_vx : ℚ
  keyLeft : Bool
  keyRight : Bool
  bullets : List Bullet
  bullet_cooldown : ℚ
  rapid_fire : Bool
  rapid_fire_timer : ℚ
  spread : Bool
  spread_timer : ℚ
  shield : Bool
  shield_timer : ℚ
  enemies : List Enemy
  enemy_bullets : List EnemyBullet
  powerups : List PowerUp
  spawn_timer : ℚ
  spawn_interval : ℚ
  elapsed : ℚ
  score : ℚ
  running : Bool
  game_over : Bool
  boss : Option Boss
  highscore : ℚ
  deriving DecidableEq, Repr

/-- Game.reset (lines 337-364): every field is assigned a constant,
except highscore which is loaded externally and supplied here as a
parameter. -/
def resetState (hs : ℚ) : GameState where
  player_x := SCREEN_W / 2
  player_y := PLAYER_Y
  player_vx := 0
  keyLeft := false
  keyRight := false
  bullets := []
  bullet_cooldown := 0
  rapid_fire := false
  rapid_fire_timer := 0
  spread := false
  spread_timer := 0
  shield := false
  shield_timer := 0
  enemies := []
  enemy_bullets := []
  powerups := []
  spawn_timer := 0
  spawn_interval := ENEMY_SPAWN_INTERVAL_START
  elapsed := 0
  score := 0
  running := true
  game_over := false
  boss := none
  highscore := hs

/-- Game.reset as an operation on an arbitrary prior state: the source
assigns every field unconditionally, so the prior state is discarded. -/
def resetG (_s : GameState) (hs : ℚ) : GameState := resetState hs

/-! ### Spawning (game.py lines 385-413) -/

/-- Game.spawn_enemy (lines 385-404), with the random draws taken from
the stream in the order the source makes them; the can_shoot
expression keeps the source's short-circuit: the second draw happens
only when the first roll fails and elapsed > 30. -/
def spawn_enemy (elapsed : ℚ) (src : List ℚ) : Enemy × List ℚ :=
  let (size, src) := rUniform 14 38 src
  let (x, src) := rUniform (size / 2) (SCREEN_W - size / 2) src
  let (speed, src) := rUniform ENEMY_MIN_SPEED ENEMY_MAX_SPEED src
  let (kv, src) := r01 src
  let kindNum : Nat := if kv < 45/100 then 0 else if kv < 80/100 then 1 else 2
  let (kind, src) :=
    if kindNum = 1 then
      let (amp, src) := rUniform 30 90 src
      let (freq, src) := rUniform (4/5) (8/5) src
      (EnemyKind.sine amp freq x, src)
    else if kindNum = 2 then
      let (hz, src) := rUniform 50 120 src
      let (dv, src) := r01 src
      let d : ℚ := if dv < 1/2 then -1 else 1
      let (sw, src) := rUniform (7/20) (9/10) src
      (EnemyKind.zigzag hz d sw 0, src)
    else (EnemyKind.straight, src)
  let (c1, src) := r01 src
  let (can_shoot, src) :=
    if c1 < 35/100 then (true, src)
    else if 30 < elapsed then
      let (c2, src) := r01 src
      (decide (c2 < 1/2), src)
    else (false, src)
  let (si, src) := rUniform 1 3 src
  ({ x := x, y := -size, r := size / 2, speed := speed, kind := kind,
     spawn_time := elapsed, can_shoot := can_shoot, shoot_timer := 0,
     shoot_interval := si }, src)

/-- Game.spawn_powerup (lines 406-408): random.choice among the three
kinds, embedded by thirds of the unit interval. -/
def spawn_powerup (x y : ℚ) (src : List ℚ) : PowerUp × List ℚ :=
  let (kv, src) := r01 src
  let kind : PKind := if kv < 1/3 then .rapid else if kv < 2/3 then .shield else .spread
  ({ x := x, y := y, kind := kind, r := 10 }, src)

/-- The Boss instance created by Game.spawn_boss (line 413). -/
def bossInit : Boss :=
  { x := SCREEN_W / 2, y := -80, r := 60, hp := 18, vx := 60,
    shoot_timer := 0, shoot_interval := 1 }

/-! ### Motion (game.py lines 436-532) -/

/-- Bullet motion and off-screen removal (lines 456-463). -/
def moveBullets (dt : ℚ) (bs : List Bullet) : List Bullet :=
  (bs.map fun b => { b with y := b.y + b.dy * dt }).filter
    fun b => decide (¬ b.y + b.h < 0)

/-- Enemy-bullet motion and off-screen removal (lines 465-473). -/
def moveEnemyBullets (dt : ℚ) (ebs : List EnemyBullet) : List EnemyBullet :=
  (ebs.map fun eb => { eb with x := eb.x + eb.dx * dt, y := eb.y + eb.dy * dt }).filter
    fun eb => decide (¬ (SCREEN_H < eb.y - eb.r ∨ eb.x < -20 ∨ SCREEN_W + 20 < eb.x))

/-- Per-kind enemy motion (lines 477-498). -/
def stepEnemyMotion (mo : MathOracle) (elapsed mul dt : ℚ) (e : Enemy) : Enemy :=
  match e.kind with
  | .straight => { e with y := e.y + e.speed * mul * dt }
  | .sine amp freq base_x =>
      let t := elapsed - e.spawn_time
      let y := e.y + e.speed * mul * dt
      let x := base_x + mo.sin2pi (t * freq) * amp
      { e with y := y, x := clamp x e.r (SCREEN_W - e.r) }
  | .zigzag hz d sw since =>
      let y := e.y + e.speed * mul * dt
      let since1 := since + dt
      let p1 := if sw ≤ since1 then ((0 : ℚ), -d) else (since1, d)
      let x1 := e.x + p1.2 * hz * dt
      let p2 := if x1 < e.r then (e.r, -p1.2, (0 : ℚ)) else (x1, p1.2, p1.1)
      let p3 := if SCREEN_W - e.r < p2.1 then (SCREEN_W - e.r, -p2.2.1, (0 : ℚ)) else p2
      { e with y := y, x := p3.1, kind := .zigzag hz p3.2.1 sw p3.2.2 }

/-- Enemy shooting (lines 500-509): the shoot timer accumulates dt and,
on reaching the interval, resets and emits one bullet aimed at the
player with a randomized speed. -/
def enemyShoot (mo : MathOracle) (px py dt : ℚ) (e : Enemy) (src : List ℚ) :
    Enemy × List EnemyBullet × List ℚ :=
  if e.can_shoot then
    let st := e.shoot_timer + dt
    if e.shoot_interval ≤ st then
      let dx := px - e.x
      let dy := py - e.y
      let dist0 := mo.hypot dx dy
      let dist := if dist0 = 0 then 1 else dist0
      let (sp, src) := rUniform (-30) 60 src
      let speed := 180 + sp
      ({ e with shoot_timer := 0 },
       [{ x := e.x, y := e.y + e.r, dx := dx / dist * speed, dy := dy / dist * speed, r := 5 }],
       src)
    else ({ e with shoot_timer := st }, [], src)
  else (e, [], src)

/-- The whole per-enemy loop (lines 475-515): motion, shooting, then
bottom-of-screen removal, in source order. -/
def moveEnemies (mo : MathOracle) (px py elapsed mul dt : ℚ) :
    List Enemy → List ℚ → List Enemy × List EnemyBullet × List ℚ
  | [], src => ([], [], src)
  | e :: rest, src =>
      let e1 := stepEnemyMotion mo elapsed mul dt e
      let sh := enemyShoot mo px py dt e1 src
      let rc := moveEnemies mo px py elapsed mul dt rest sh.2.2
      ((if SCREEN_H < sh.1.y - sh.1.r then rc.1 else sh.1 :: rc.1),
       sh.2.1 ++ rc.2.1, rc.2.2)

/-- Boss behavior (lines 517-532): descend while y < 80, otherwise
patrol horizontally, bounce the velocity at the edges, and fire the
five-bullet fan when the shoot timer reaches its interval. -/
def moveBoss (mo : MathOracle) (dt : ℚ) (b : Boss) : Boss × List EnemyBullet :=
  if b.y < 80 then ({ b with y := b.y + 40 * dt }, [])
  else
    let x := b.x + b.vx * dt
    let vx := if x < b.r ∨ SCREEN_W - b.r < x then -b.vx else b.vx
    let st := b.shoot_timer + dt
    if b.shoot_interval ≤ st then
      let mk : ℚ → EnemyBullet := fun a =>
        { x := x, y := b.y + b.r - 6, dx := mo.sinA a * 200, dy := mo.cosA a * 200, r := 4 }
      ({ b with x := x, vx := vx, shoot_timer := 0 },
       [mk (-(1/2)), mk (-(1/4)), mk 0, mk (1/4), mk (1/2)])
    else ({ b with x := x, vx := vx, shoot_timer := st }, [])

/-! ### Collisions (game.py lines 534-647) -/

/-- The circle-rectangle style test of a bullet point against an
enemy's bounding box (lines 538-542). -/
def bulletHitsEnemy (b : Bullet) (e : Enemy) : Bool :=
  let cx := clamp b.x (e.x - e.r) (e.x + e.r)
  let cy := clamp b.y (e.y - e.r) (e.y + e.r)
  decide ((b.x - cx) * (b.x - cx) + (b.y - cy) * (b.y - cy) ≤ e.r * e.r)

/-- The circle-circle test of a bullet point against the boss
(lines 560-562). -/
def bulletHitsBoss (b : Bullet) (bo : Boss) : Bool :=
  decide ((b.x - bo.x) * (b.x - bo.x) + (b.y - bo.y) * (b.y - bo.y) ≤ bo.r * bo.r)

/-- Value equality of two rationals as a boolean, through the order
(equivalent to = by antisymmetry; Python float equality on dataclass
fields). -/
def qBeq (a b : ℚ) : Bool := decide (a ≤ b) && decide (b ≤ a)

/-- Fieldwise value equality of Bullet (the dataclass __eq__ that
list.remove uses). -/
def bulletBeq (a b : Bullet) : Bool :=
  qBeq a.x b.x && qBeq a.y b.y && qBeq a.dy b.dy && qBeq a.w b.w && qBeq a.h b.h

/-- Fieldwise value equality of EnemyBullet. -/
def ebBeq (a b : EnemyBullet) : Bool :=
  qBeq a.x b.x && qBeq a.y b.y && qBeq a.dx b.dx && qBeq a.dy b.dy && qBeq a.r b.r

/-- Value equality of the kind tag with its extra parameters. -/
def kindBeq : EnemyKind → EnemyKind → Bool
  | .straight, .straight => true
  | .sine a f bx, .sine a2 f2 bx2 => qBeq a a2 && qBeq f f2 && qBeq bx bx2
  | .zigzag h d sw si, .zigzag h2 d2 sw2 si2 =>
      qBeq h h2 && qBeq d d2 && qBeq sw sw2 && qBeq si si2
  | _, _ => false

/-- Fieldwise value equality of Enemy. -/
def enemyBeq (a b : Enemy) : Bool :=
  qBeq a.x b.x && qBeq a.y b.y && qBeq a.r b.r && qBeq a.speed b.speed &&
  kindBeq a.kind b.kind && qBeq a.spawn_time b.spawn_time &&
  (a.can_shoot == b.can_shoot) && qBeq a.shoot_timer b.shoot_timer &&
  qBeq a.shoot_interval b.shoot_interval

/-- list.remove(x) with a silent miss (the try/except pattern of the
source): removes the first occurrence under the given value equality,
no-op when absent. -/
def eraseFirstBy {α : Type} (eq : α → α → Bool) : List α → α → List α
  | [], _ => []
  | x :: xs, a => if eq x a then xs else x :: eraseFirstBy eq xs a

/-- The inner scan of the bullets-vs-enemies loop (lines 537-556): the
first enemy of the list the bullet overlaps, if any (the source breaks
after the first hit). -/
def bulletScan (b : Bullet) : List Enemy → Option Enemy
  | [] => none
  | e :: rest => if bulletHitsEnemy b e then some e else bulletScan b rest

/-- The mutable collections threaded through the bullets-vs-enemies
and bullets-vs-boss loop (lines 534-574). -/
structure CombatSt where
  bullets : List Bullet
  enemies : List Enemy
  boss : Option Boss
  powerups : List PowerUp
  score : ℚ
  evs : List Ev
  src : List ℚ
  deriving DecidableEq, Repr

/-- One outer iteration of the bullets loop (lines 535-574): the bullet
kills the first overlapping enemy (scoring 10 + int(radius) and
rolling the power-up drop), or else hits the boss if present and
overlapping (scoring 15, and 200 more with removal on death). -/
def bulletStep (st : CombatSt) (b : Bullet) : CombatSt :=
  match bulletScan b st.enemies with
  | some e =>
      let st1 : CombatSt := { st with
        enemies := eraseFirstBy enemyBeq st.enemies e,
        bullets := eraseFirstBy bulletBeq st.bullets b,
        score := st.score + 10 + ((pyInt e.r : ℤ) : ℚ),
        evs := st.evs ++ [.enemyDestroyed] }
      let (roll, src1) := r01 st1.src
      if roll < POWERUP_SPAWN_CHANCE then
        let (p, src2) := spawn_powerup e.x e.y src1
        { st1 with powerups := st1.powerups ++ [p], src := src2 }
      else { st1 with src := src1 }
  | none =>
      match st.boss with
      | some bo =>
          if bulletHitsBoss b bo then
            let bullets := eraseFirstBy bulletBeq st.bullets b
            if bo.hp - 1 ≤ 0 then
              { st with
                bullets := bullets, score := st.score + 15 + 200, boss := none,
                evs := st.evs ++ [.bossHit, .bossDestroyed] }
            else
              { st with
                bullets := bullets, score := st.score + 15,
                boss := some { bo with hp := bo.hp - 1 },
                evs := st.evs ++ [.bossHit] }
          else st
      | none => st

/-- The bullets loop over the snapshot taken at line 535. -/
def collideBullets (st : CombatSt) (snapshot : List Bullet) : CombatSt :=
  snapshot.foldl bulletStep st

/-- The circle-rectangle test of a circular projectile of radius r at
(cx0, cy0) against the player rectangle built at line 577: the
pygame.Rect corners truncate the float coordinates toward zero. -/
def circleHitsPlayerRect (px py cx0 cy0 r : ℚ) : Bool :=
  let left : ℚ := ((pyInt (px - PLAYER_W / 2) : ℤ) : ℚ)
  let top : ℚ := ((pyInt (py - PLAYER_H / 2) : ℤ) : ℚ)
  let cx := clamp cx0 left (left + PLAYER_W)
  let cy := clamp cy0 top (top + PLAYER_H)
  decide ((cx0 - cx) * (cx0 - cx) + (cy0 - cy) * (cy0 - cy) ≤ r * r)

/-- Result of the enemy-bullets-vs-player loop. -/
structure EbRes where
  ebs : List EnemyBullet
  shield : Bool
  died : Bool
  evs : List Ev
  deriving DecidableEq, Repr

/-- Enemy bullets vs player (lines 576-596): a hit removes the bullet;
with the shield up it is absorbed (shield consumed, loop continues),
otherwise the game is over and the source returns from update at once,
leaving the rest of the list untouched. -/
def ebPlayerPhase (px py : ℚ) (shield : Bool) : List EnemyBullet → EbRes
  | [] => ⟨[], shield, false, []⟩
  | eb :: rest =>
      if circleHitsPlayerRect px py eb.x eb.y eb.r then
        if shield then
          let r := ebPlayerPhase px py false rest
          ⟨r.ebs, r.shield, r.died, .shieldAbsorb :: r.evs⟩
        else ⟨rest, shield, true, [.gameOver]⟩
      else
        let r := ebPlayerPhase px py shield rest
        ⟨eb :: r.ebs, r.shield, r.died, r.evs⟩

/-- Result of the enemies-vs-player contact loop. -/
structure ContactRes where
  enemies : List Enemy
  shield : Bool
  died : Bool
  add : ℚ
  evs : List Ev
  deriving DecidableEq, Repr

/-- Enemies vs player contact (lines 598-618): with the shield up the
enemy is destroyed for 5 points (loop continues), otherwise the game
is over and the source returns at once, removing nothing. -/
def contactPhase (px py : ℚ) (shield : Bool) : List Enemy → ContactRes
  | [] => ⟨[], shield, false, 0, []⟩
  | e :: rest =>
      if circleHitsPlayerRect px py e.x e.y e.r then
        if shield then
          let r := contactPhase px py false rest
          ⟨r.enemies, r.shield, r.died, r.add + 5, .contactKill :: r.evs⟩
        else ⟨e :: rest, shield, true, 0, [.gameOver]⟩
      else
        let r := contactPhase px py shield rest
        ⟨e :: r.enemies, r.shield, r.died, r.add, r.evs⟩

/-- The active-effect flags and countdowns of the player. -/
structure EffSt where
  rapid : Bool
  rapidT : ℚ
  spread : Bool
  spreadT : ℚ
  shield : Bool
  shieldT : ℚ
  deriving DecidableEq, Repr

/-- Effect-timer decay (lines 442-454): each active countdown is
decremented by dt and its flag dropped when the countdown is ≤ 0 (the
countdown itself keeps its possibly negative value). -/
def tickEffects (dt : ℚ) (eff : EffSt) : EffSt :=
  let e1 := if eff.rapid then
      { eff with rapid := decide (¬ eff.rapidT - dt ≤ 0), rapidT := eff.rapidT - dt }
    else eff
  let e2 := if e1.spread then
      { e1 with spread := decide (¬ e1.spreadT - dt ≤ 0), spreadT := e1.spreadT - dt }
    else e1
  if e2.shield then
    { e2 with shield := decide (¬ e2.shieldT - dt ≤ 0), shieldT := e2.shieldT - dt }
  else e2

/-- The circle-circle pickup test (line 624): powerup radius plus half
the player width, against the player center. -/
def powerupHitsPlayer (px py : ℚ) (p : PowerUp) : Bool :=
  decide ((p.x - px) * (p.x - px) + (p.y - py) * (p.y - py)
    ≤ (p.r + PLAYER_W / 2) * (p.r + PLAYER_W / 2))

/-- Powerup collection (lines 620-638): each collected powerup
activates its effect with the full duration and is removed. -/
def collectPhase (px py : ℚ) (eff : EffSt) :
    List PowerUp → List PowerUp × EffSt × List Ev
  | [] => ([], eff, [])
  | p :: rest =>
      if powerupHitsPlayer px py p then
        let eff1 := match p.kind with
          | .rapid => { eff with rapid := true, rapidT := POWERUP_DURATION }
          | .shield => { eff with shield := true, shieldT := POWERUP_DURATION }
          | .spread => { eff with spread := true, spreadT := POWERUP_DURATION }
        let (ps, eff2, evs) := collectPhase px py eff1 rest
        (ps, eff2, .powerupCollected :: evs)
      else
        let (ps, eff2, evs) := collectPhase px py eff rest
        (p :: ps, eff2, evs)

/-- Powerup falling and bottom removal (lines 640-647). -/
def fallPhase (dt : ℚ) (ps : List PowerUp) : List PowerUp :=
  (ps.map fun p => { p with y := p.y + 90 * dt }).filter
    fun p => decide (¬ SCREEN_H < p.y - p.r)

/-! ### The frame step Game.update (game.py lines 415-650) -/

/-- The difficulty multiplier of line 422: 1 + elapsed / 60. -/
def difficulty_mul (elapsed : ℚ) : ℚ := 1 + elapsed / 60

/-- The spawn-interval assignment of line 427:
max(ENEMY_SPAWN_INTERVAL_MIN, ENEMY_SPAWN_INTERVAL_START - elapsed / 60). -/
def spawnIntervalFormula (elapsed : ℚ) : ℚ :=
  max ENEMY_SPAWN_INTERVAL_MIN (ENEMY_SPAWN_INTERVAL_START - elapsed / 60)

/-- The enemy-spawn block of update (lines 424-430), active only while
no boss exists and the score is below the boss threshold: the spawn
timer accumulates dt, the interval is reassigned from the formula, and
on reaching the interval the timer resets and one enemy spawns.
Returns (spawn_timer, spawn_interval, enemies, rest of stream); the
elapsed time has already been advanced by dt (line 420). -/
def spawnBlock (s : GameState) (dt : ℚ) (src : List ℚ) :
    ℚ × ℚ × List Enemy × List ℚ :=
  if s.boss = none ∧ s.score < BOSS_APPEAR_SCORE then
    let st := s.spawn_timer + dt
    let si := spawnIntervalFormula (s.elapsed + dt)
    if si ≤ st then
      let es := spawn_enemy (s.elapsed + dt) src
      ((0 : ℚ), si, s.enemies ++ [es.1], es.2)
    else (st, si, s.enemies, src)
  else (s.spawn_timer, s.spawn_interval, s.enemies, src)

/-- Everything the frame step computes before the enemy-bullets-vs-player
loop, bundled: the spawn block, the boss spawn check, player motion,
effect decay, entity motion, boss motion, and the bullets collision loop
(game.py lines 420-574). -/
structure MidSt where
  elapsed : ℚ
  mul : ℚ
  spawnT : ℚ
  spawnI : ℚ
  vx : ℚ
  px : ℚ
  eff : EffSt
  ebs2 : List EnemyBullet
  cst : CombatSt
  spawnEvs : List Ev

/-- The prefix of the frame step up to and including the bullets
collision loop (game.py lines 420-574), in source order. -/
def updateMid (mo : MathOracle) (s : GameState) (dt : ℚ) (src : List ℚ) : MidSt :=
  let elapsed := s.elapsed + dt
  let mul := difficulty_mul elapsed
  let spw := spawnBlock s dt src
  let bos :=
    if s.boss = none ∧ BOSS_APPEAR_SCORE ≤ s.score then (some bossInit, [Ev.bossSpawn])
    else (s.boss, ([] : List Ev))
  let dirx : ℚ := (if s.keyLeft then -1 else 0) + (if s.keyRight then 1 else 0)
  let vx := dirx * PLAYER_SPEED * mul
  let px := clamp (s.player_x + vx * dt) (PLAYER_W / 2) (SCREEN_W - PLAYER_W / 2)
  let eff := tickEffects dt
    ⟨s.rapid_fire, s.rapid_fire_timer, s.spread, s.spread_timer, s.shield, s.shield_timer⟩
  let bullets1 := moveBullets dt s.bullets
  let ebs1 := moveEnemyBullets dt s.enemy_bullets
  let mv := moveEnemies mo px s.player_y elapsed mul dt spw.2.2.1 spw.2.2.2
  let bb :=
    match bos.1 with
    | none => (none, [])
    | some b => let r := moveBoss mo dt b; (some r.1, r.2)
  let ebs2 := ebs1 ++ mv.2.1 ++ bb.2
  let cst := collideBullets
    ⟨bullets1, mv.1, bb.1, s.powerups, s.score, [], mv.2.2⟩ bullets1
  { elapsed := elapsed, mul := mul, spawnT := spw.1, spawnI := spw.2.1,
    vx := vx, px := px, eff := eff, ebs2 := ebs2, cst := cst, spawnEvs := bos.2 }

/-- The early return of the enemy-bullets-vs-player loop (lines
592-596): the player is killed, the terminal flags are set, and the
frame stops at once, so the state keeps exactly what was computed up
to that loop — no enemy-contact pass, no powerup pass, and no passive
score accrual. -/
def finishDied1 (s : GameState) (m : MidSt) (er : EbRes) :
    GameState × List Ev × List ℚ :=
  ({ s with
     player_x := m.px, player_vx := m.vx, elapsed := m.elapsed,
     spawn_timer := m.spawnT, spawn_interval := m.spawnI,
     rapid_fire := m.eff.rapid, rapid_fire_timer := m.eff.rapidT,
     spread := m.eff.spread, spread_timer := m.eff.spreadT,
     shield := er.shield, shield_timer := m.eff.shieldT,
     bullets := m.cst.bullets, enemies := m.cst.enemies, boss := m.cst.boss,
     powerups := m.cst.powerups, enemy_bullets := er.ebs,
     score := m.cst.score, game_over := true, running := false },
   m.spawnEvs ++ m.cst.evs ++ er.evs, m.cst.src)

/-- The early return of the enemies-vs-player contact loop (lines
613-618): same hard stop, after any shielded contact kills of that
loop have been scored. -/
def finishDied2 (s : GameState) (m : MidSt) (er : EbRes) (cr : ContactRes) :
    GameState × List Ev × List ℚ :=
  ({ s with
     player_x := m.px, player_vx := m.vx, elapsed := m.elapsed,
     spawn_timer := m.spawnT, spawn_interval := m.spawnI,
     rapid_fire := m.eff.rapid, rapid_fire_timer := m.eff.rapidT,
     spread := m.eff.spread, spread_timer := m.eff.spreadT,
     shield := cr.shield, shield_timer := m.eff.shieldT,
     bullets := m.cst.bullets, enemies := cr.enemies, boss := m.cst.boss,
     powerups := m.cst.powerups, enemy_bullets := er.ebs,
     score := m.cst.score + cr.add, game_over := true, running := false },
   m.spawnEvs ++ m.cst.evs ++ er.evs ++ cr.evs, m.cst.src)

/-- The normal end of the frame (lines 620-650): powerup collection,
powerup falling, and the passive score accrual of line 650. -/
def finishNorm (s : GameState) (dt : ℚ) (m : MidSt) (er : EbRes) (cr : ContactRes) :
    GameState × List Ev × List ℚ :=
  let col := collectPhase m.px s.player_y
    ⟨m.eff.rapid, m.eff.rapidT, m.eff.spread, m.eff.spreadT, cr.shield, m.eff.shieldT⟩
    m.cst.powerups
  let ps2 := fallPhase dt col.1
  ({ s with
     player_x := m.px, player_vx := m.vx, elapsed := m.elapsed,
     spawn_timer := m.spawnT, spawn_interval := m.spawnI,
     rapid_fire := col.2.1.rapid, rapid_fire_timer := col.2.1.rapidT,
     spread := col.2.1.spread, spread_timer := col.2.1.spreadT,
     shield := col.2.1.shield, shield_timer := col.2.1.shieldT,
     bullets := m.cst.bullets, enemies := cr.enemies, boss := m.cst.boss,
     powerups := ps2, enemy_bullets := er.ebs,
     score := m.cst.score + cr.add + dt * 5 * m.mul },
   m.spawnEvs ++ m.cst.evs ++ er.evs ++ cr.evs ++ col.2.2, m.cst.src)

/-- The running frame step: the computations of lines 420-574 bundled
in updateMid, then the enemy-bullets-vs-player loop, the contact loop,
and the closing phases, with the two early returns. -/
def updateCore (mo : MathOracle) (s : GameState) (dt : ℚ) (src : List ℚ) :
    GameState × List Ev × List ℚ :=
  let m := updateMid mo s dt src
  let er := ebPlayerPhase m.px s.player_y m.eff.shield m.ebs2
  if er.died then finishDied1 s m er
  else
    let cr := contactPhase m.px s.player_y er.shield m.cst.enemies
    if cr.died then finishDied2 s m er cr
    else finishNorm s dt m er cr

/-- Game.update(dt): the per-frame step, returning the new state, the
events of the frame, and the rest of the random stream.  A no-op when
not running or already game over (lines 416-419). -/
def update (mo : MathOracle) (s : GameState) (dt : ℚ) (src : List ℚ) :
    GameState × List Ev × List ℚ :=
  if ¬ s.running then (s, [], src)
  else if s.game_over then (s, [], src)
  else updateCore mo s dt src

/-! ### The fire command and the run-loop cooldown tick -/

/-- Game.fire_bullet (lines 652-665): a no-op while the cooldown is
positive; otherwise emits one bullet, or three at offsets -8, 0, +8
with spread active, and rearms the cooldown (scaled by 0.4 under rapid
fire).  Note the source checks only the cooldown here, not game_over. -/
def fire_bullet (s : GameState) : GameState × List Ev :=
  if 0 < s.bullet_cooldown then (s, [])
  else
    let cooldown := PLAYER_COOLDOWN * (if s.rapid_fire then 2/5 else 1)
    let mk : ℚ → Bullet := fun off =>
      { x := s.player_x + off, y := s.player_y - PLAYER_H / 2,
        dy := -BULLET_SPEED, w := BULLET_W, h := BULLET_H }
    let nbs := if s.spread then [mk (-8), mk 0, mk 8] else [mk 0]
    ({ s with bullets := s.bullets ++ nbs, bullet_cooldown := cooldown }, [.fired])

/-- The cooldown decay of the run loop (line 790). -/
def tickCooldown (s : GameState) (dt : ℚ) : GameState :=
  { s with bullet_cooldown := max 0 (s.bullet_cooldown - dt) }

/-! ### The control surface and reachability -/

/-- One interaction with the simulation core: an advance(dt) with its
random stream, a direct fire_bullet call, the run-loop cooldown tick,
a key state change, or a reset with the externally loaded highscore. -/
inductive Op
  | advance (dt : ℚ) (src : List ℚ)
  | fire
  | tick (dt : ℚ)
  | setKeys (l r : Bool)
  | reset (hs : ℚ)

/-- Apply one operation, returning the new state and its events. -/
def applyOp (mo : MathOracle) (s : GameState) : Op → GameState × List Ev
  | .advance dt src => let r := update mo s dt src; (r.1, r.2.1)
  | .fire => fire_bullet s
  | .tick dt => (tickCooldown s dt, [])
  | .setKeys l r => ({ s with keyLeft := l, keyRight := r }, [])
  | .reset hs => (resetState hs, [])

/-- Run a list of operations, accumulating all emitted events. -/
def runOps (mo : MathOracle) (s : GameState) : List Op → GameState × List Ev
  | [] => (s, [])
  | op :: ops =>
      let r := applyOp mo s op
      let r2 := runOps mo r.1 ops
      (r2.1, r.2 ++ r2.2)

/-- A well-behaved frame driver never supplies a negative dt. -/
def OpOK : Op → Prop
  | .advance dt _ => 0 ≤ dt
  | .tick dt => 0 ≤ dt
  | _ => True

instance : DecidablePred OpOK := by
  intro op; cases op <;> simp [OpOK] <;> infer_instance

/-- Every operation of the list has a non-negative dt. -/
def OpsOK (ops : List Op) : Prop := ∀ op ∈ ops, OpOK op

instance : DecidablePred OpsOK :=
  fun ops => inferInstanceAs (Decidable (∀ op ∈ ops, OpOK op))

/-- An operation list made only of advance calls with non-negative dt
(the setting of the monotonicity properties). -/
def AdvanceOnly (ops : List Op) : Prop :=
  ∀ op ∈ ops, ∃ dt src, op = Op.advance dt src ∧ 0 ≤ dt

/-- True exactly on reset operations. -/
def isReset : Op → Bool
  | .reset _ => true
  | _ => false

/-! ### Generic lemmas about runOps -/

theorem runOps_append (mo : MathOracle) (s : GameState) (l1 l2 : List Op) :
    runOps mo s (l1 ++ l2) =
      ((runOps mo (runOps mo s l1).1 l2).1,
       (runOps mo s l1).2 ++ (runOps mo (runOps mo s l1).1 l2).2) := by
  induction l1 generalizing s with
  | nil => simp [runOps]
  | cons op ops ih => simp [runOps, ih]

theorem runOps_invariant (P : GameState → Prop) (mo : MathOracle)
    (hstep : ∀ s op, OpOK op → P s → P (applyOp mo s op).1) :
    ∀ ops s, P s → OpsOK ops → P (runOps mo s ops).1 := by
  intro ops
  induction ops with
  | nil => intro s h _; exact h
  | cons op rest ih =>
      intro s h hok
      exact ih _ (hstep s op (hok op (by simp)) h)
        (fun o ho => hok o (by simp [ho]))

/-! ### C9: reset restores the freshly constructed state -/

/-- C9: Calling reset() from any state restores, with exact equality,
score 0, elapsed 0, empty entity collections, no boss, all effects
inactive with zeroed timers and cooldown, zeroed spawn timer with the
start interval, game_over false and running true — identical to a
freshly constructed simulation except for the externally supplied
highscore (the constructor Game.__init__ itself calls reset, line 306
of game.py). -/
theorem reset_restores_fresh_state (s : GameState) (hs hs2 : ℚ) :
    resetG s hs = resetState hs ∧
    (resetG s hs).score = 0 ∧ (resetG s hs).elapsed = 0 ∧
    (resetG s hs).bullets = [] ∧ (resetG s hs).enemy_bullets = [] ∧
    (resetG s hs).enemies = [] ∧ (resetG s hs).powerups = [] ∧
    (resetG s hs).boss = none ∧
    (resetG s hs).rapid_fire = false ∧ (resetG s hs).rapid_fire_timer = 0 ∧
    (resetG s hs).spread = false ∧ (resetG s hs).spread_timer = 0 ∧
    (resetG s hs).shield = false ∧ (resetG s hs).shield_timer = 0 ∧
    (resetG s hs).bullet_cooldown = 0 ∧
    (resetG s hs).spawn_timer = 0 ∧
    (resetG s hs).spawn_interval = ENEMY_SPAWN_INTERVAL_START ∧
    (resetG s hs).game_over = false ∧ (resetG s hs).running = true ∧
    { resetG s hs with highscore := 0 } = { resetState hs2 with highscore := 0 } :=
  ⟨rfl, rfl, rfl, rfl, rfl, rfl, rfl, rfl, rfl, rfl, rfl, rfl, rfl, rfl,
   rfl, rfl, rfl, rfl, rfl, rfl⟩

/-! ### C2 (amended): update is a no-op after game over; fire_bullet
checks only the cooldown -/

/-- C2 amended: after game_over is set, every update call is a no-op
returning the state unchanged with no events, until reset; fire_bullet,
however, does not look at game_over at all — it is a no-op exactly
while the cooldown is positive (game.py line 653). -/
theorem update_noop_after_game_over (mo : MathOracle) (s : GameState)
    (dt : ℚ) (src : List ℚ) (hg : s.game_over = true) :
    update mo s dt src = (s, [], src) ∧
    (0 < s.bullet_cooldown → fire_bullet s = (s, [])) := by
  constructor
  · unfold update
    by_cases hr : s.running
    · rw [if_neg (by simp [hr]), if_pos hg]
    · rw [if_pos (by simp [hr])]
  · intro hc
    unfold fire_bullet
    rw [if_pos hc]

/-- A game-over state with a live cooldown, for the witness below. -/
def c2w : GameState := { resetState 0 with game_over := true, bullet_cooldown := 1 }

theorem update_noop_after_game_over_witness :
    update mo0 c2w 1 [] = (c2w, [], []) ∧
    (0 < c2w.bullet_cooldown → fire_bullet c2w = (c2w, [])) :=
  update_noop_after_game_over mo0 c2w 1 [] rfl

/-- C2 counterexample: a game reaches game over in one advance call
(an enemy spawns at the player's column and lands on the player's
rectangle in the same frame); fire_bullet called on that terminal
state is not a no-op: with the cooldown at zero it creates a bullet
and rearms the cooldown, although game_over is set. -/
def c2ops : List Op := [.advance (15/2) [20, 240, 70, 1/10, 9/10, 2]]

/-- The terminal state the trace above reaches. -/
def c2state : GameState := (runOps mo0 (resetState 0) c2ops).1

theorem fire_not_noop_after_game_over :
    OpsOK c2ops ∧
    c2state.game_over = true ∧ c2state.running = false ∧
    c2state.bullet_cooldown = 0 ∧ c2state.bullets = [] ∧
    (fire_bullet c2state).1.bullets.length = 1 ∧
    (fire_bullet c2state).1.bullet_cooldown = PLAYER_COOLDOWN ∧
    (fire_bullet c2state).1 ≠ c2state := by
  refine ⟨of_decide_eq_true (by with_unfolding_all rfl),
    by with_unfolding_all rfl, by with_unfolding_all rfl,
    by with_unfolding_all rfl, by with_unfolding_all rfl,
    by with_unfolding_all rfl, by with_unfolding_all rfl, ?_⟩
  have h1 : (fire_bullet c2state).1.bullets.length = 1 := by with_unfolding_all rfl
  have h0 : c2state.bullets.length = 0 := by with_unfolding_all rfl
  intro h
  rw [h, h0] at h1
  exact one_ne_zero h1.symm

/-! ### C10: the boss neither shoots nor accumulates its shoot timer
while descending -/

/-- C10: while the boss is below the patrol altitude (y < 80), the
boss step only descends at the fixed rate: it emits no enemy bullets
and its shoot timer is untouched; the five-bullet fan exists only in
the patrol branch of moveBoss. -/
theorem boss_descent_no_fan (mo : MathOracle) (dt : ℚ) (b : Boss)
    (h : b.y < 80) :
    moveBoss mo dt b = ({ b with y := b.y + 40 * dt }, []) ∧
    (moveBoss mo dt b).1.shoot_timer = b.shoot_timer ∧
    (moveBoss mo dt b).2 = [] := by
  unfold moveBoss
  rw [if_pos h]
  exact ⟨rfl, rfl, rfl⟩

/-- The boss as freshly spawned, used as witness input. -/
def c10b : Boss :=
  { x := 240, y := -80, r := 60, hp := 18, vx := 60, shoot_timer := 0, shoot_interval := 1 }

theorem boss_descent_no_fan_witness :
    moveBoss mo0 1 c10b = ({ c10b with y := c10b.y + 40 * 1 }, []) ∧
    (moveBoss mo0 1 c10b).1.shoot_timer = c10b.shoot_timer ∧
    (moveBoss mo0 1 c10b).2 = [] :=
  boss_descent_no_fan mo0 1 c10b (by norm_num [c10b])

/-! ### Characterizations of one bullet iteration -/

theorem eraseFirstBy_length {α : Type} (eq : α → α → Bool) (l : List α) (a : α) :
    l.length ≤ (eraseFirstBy eq l a).length + 1 := by
  induction l with
  | nil => simp [eraseFirstBy]
  | cons x xs ih =>
      unfold eraseFirstBy
      split
      · simp
      · simpa using Nat.succ_le_succ ih

theorem bulletScan_some_hits (b : Bullet) (es : List Enemy) (e : Enemy)
    (h : bulletScan b es = some e) : bulletHitsEnemy b e = true := by
  induction es with
  | nil => simp [bulletScan] at h
  | cons x xs ih =>
      unfold bulletScan at h
      by_cases hx : bulletHitsEnemy b x
      · rw [if_pos hx] at h
        cases h
        exact hx
      · rw [if_neg hx] at h
        exact ih h

/-- The kill branch of one bullet iteration (game.py lines 537-556):
destroy the scanned enemy and the bullet, award 10 + int(enemy
radius), emit one destroyed event. -/
theorem bulletStep_kill_branch (st : CombatSt) (b : Bullet) (e : Enemy)
    (hscan : bulletScan b st.enemies = some e) :
    bulletHitsEnemy b e = true ∧
    (bulletStep st b).enemies = eraseFirstBy enemyBeq st.enemies e ∧
    (bulletStep st b).bullets = eraseFirstBy bulletBeq st.bullets b ∧
    (bulletStep st b).score = st.score + 10 + ((pyInt e.r : ℤ) : ℚ) ∧
    (bulletStep st b).evs = st.evs ++ [Ev.enemyDestroyed] ∧
    (bulletStep st b).boss = st.boss := by
  refine ⟨bulletScan_some_hits b st.enemies e hscan, ?_⟩
  unfold bulletStep
  rw [hscan]
  simp only []
  split <;> exact ⟨rfl, rfl, rfl, rfl, rfl⟩

/-- A bullet that hit nothing changes nothing. -/
theorem bulletStep_no_hit (st : CombatSt) (b : Bullet)
    (hscan : bulletScan b st.enemies = none)
    (hmiss : ∀ bo, st.boss = some bo → ¬ bulletHitsBoss b bo = true) :
    bulletStep st b = st := by
  unfold bulletStep
  rw [hscan]
  cases hb : st.boss with
  | none => rfl
  | some bo =>
      simp only []
      rw [if_neg (hmiss bo hb)]

/-- The boss branch of one bullet iteration (game.py lines 559-574):
the bullet hit no enemy, the boss exists and overlaps it. -/
theorem bulletStep_boss_hit (st : CombatSt) (b : Bullet) (bo : Boss)
    (hb : st.boss = some bo) (hscan : bulletScan b st.enemies = none)
    (hh : bulletHitsBoss b bo = true) :
    bulletStep st b =
      if bo.hp - 1 ≤ 0 then
        { st with bullets := eraseFirstBy bulletBeq st.bullets b,
                  score := st.score + 15 + 200, boss := none,
                  evs := st.evs ++ [.bossHit, .bossDestroyed] }
      else
        { st with bullets := eraseFirstBy bulletBeq st.bullets b,
                  score := st.score + 15,
                  boss := some { bo with hp := bo.hp - 1 },
                  evs := st.evs ++ [.bossHit] } := by
  unfold bulletStep
  rw [hscan, hb]
  simp only [hh, if_true]

/-! ### C5: bullet-vs-boss scoring and boss removal -/

/-- C5: in the bullets loop, a bullet that hit no enemy and overlaps
the boss is removed, the score gains 15, and the boss loses one
hit-point; when the hit-points thereby reach 0, a further 200 is
awarded and the boss is removed (the optional slot cleared), so a
boss at hp = 1 yields exactly 215 over the pre-hit score and becomes
absent (game.py lines 559-574). -/
theorem bullet_boss_hit_rules (st : CombatSt) (b : Bullet) (bo : Boss)
    (hb : st.boss = some bo) (hscan : bulletScan b st.enemies = none)
    (hh : bulletHitsBoss b bo = true) :
    (bulletStep st b).bullets = eraseFirstBy bulletBeq st.bullets b ∧
    (bulletStep st b).score = st.score + 15 + (if bo.hp - 1 ≤ 0 then 200 else 0) ∧
    (bulletStep st b).boss =
      (if bo.hp - 1 ≤ 0 then none else some { bo with hp := bo.hp - 1 }) ∧
    (bulletStep st b).evs =
      st.evs ++ (if bo.hp - 1 ≤ 0 then [.bossHit, .bossDestroyed] else [.bossHit]) ∧
    (bo.hp = 1 →
      (bulletStep st b).score = st.score + 215 ∧ (bulletStep st b).boss = none) := by
  have key := bulletStep_boss_hit st b bo hb hscan hh
  by_cases hhp : bo.hp - 1 ≤ 0
  · rw [key, if_pos hhp, if_pos hhp, if_pos hhp, if_pos hhp]
    exact ⟨rfl, rfl, rfl, rfl, fun _ => ⟨by show _ + 15 + 200 = _ + 215; ring, rfl⟩⟩
  · rw [key, if_neg hhp, if_neg hhp, if_neg hhp, if_neg hhp]
    exact ⟨rfl, (add_zero _).symm, rfl, rfl,
      fun h1 => absurd (by rw [h1]; norm_num) hhp⟩

/-- The hp = 1 boss of the witness scenario. -/
def c5bo : Boss :=
  { x := 240, y := 80, r := 60, hp := 1, vx := 60, shoot_timer := 0, shoot_interval := 1 }

/-- The bullet of the witness scenario, 20 pixels below the boss center. -/
def c5b : Bullet := { x := 240, y := 100, dy := -480, w := 4, h := 10 }

/-- Concrete boss-at-hp-1 combat state for the witness. -/
def c5st : CombatSt :=
  { bullets := [c5b], enemies := [], boss := some c5bo, powerups := [], score := 500,
    evs := [], src := [] }

/-! ### Which events each collision phase can emit -/

theorem bulletStep_evs_mem (st : CombatSt) (b : Bullet) (v : Ev)
    (hv : v ∈ (bulletStep st b).evs) :
    v ∈ st.evs ∨ v = Ev.enemyDestroyed ∨ v = Ev.bossHit ∨ v = Ev.bossDestroyed := by
  cases hscan : bulletScan b st.enemies with
  | some e =>
      rw [(bulletStep_kill_branch st b e hscan).2.2.2.2.1] at hv
      simp only [List.mem_append, List.mem_singleton] at hv
      tauto
  | none =>
      cases hb : st.boss with
      | none =>
          rw [bulletStep_no_hit st b hscan (fun bo h => by rw [hb] at h; cases h)] at hv
          exact Or.inl hv
      | some bo =>
          by_cases hh : bulletHitsBoss b bo = true
          · rw [bulletStep_boss_hit st b bo hb hscan hh] at hv
            split at hv <;>
              (simp only [List.mem_append, List.mem_cons, List.mem_singleton] at hv; tauto)
          · rw [bulletStep_no_hit st b hscan
              (fun bo2 h2 => by rw [hb] at h2; cases h2; exact hh)] at hv
            exact Or.inl hv

theorem collideBullets_evs_mem (snapshot : List Bullet) (st : CombatSt) (v : Ev)
    (hv : v ∈ (collideBullets st snapshot).evs) :
    v ∈ st.evs ∨ v = Ev.enemyDestroyed ∨ v = Ev.bossHit ∨ v = Ev.bossDestroyed := by
  induction snapshot generalizing st with
  | nil => exact Or.inl hv
  | cons b rest ih =>
      have hv2 : v ∈ (collideBullets (bulletStep st b) rest).evs := hv
      rcases ih (bulletStep st b) hv2 with h | h
      · exact bulletStep_evs_mem st b v h
      · exact Or.inr h

theorem ebPlayerPhase_evs_mem (px py : ℚ) (sh : Bool) (ebs : List EnemyBullet)
    (v : Ev) (hv : v ∈ (ebPlayerPhase px py sh ebs).evs) :
    v = Ev.shieldAbsorb ∨ v = Ev.gameOver := by
  induction ebs generalizing sh with
  | nil => simp [ebPlayerPhase] at hv
  | cons eb rest ih =>
      unfold ebPlayerPhase at hv
      by_cases h1 : circleHitsPlayerRect px py eb.x eb.y eb.r
      · rw [if_pos h1] at hv
        by_cases h2 : sh = true
        · rw [if_pos h2] at hv
          simp only [List.mem_cons] at hv
          rcases hv with h | h
          · exact Or.inl h
          · exact ih false h
        · rw [if_neg h2] at hv
          simp at hv
          exact Or.inr hv
      · rw [if_neg h1] at hv
        exact ih sh hv

theorem contactPhase_evs_mem (px py : ℚ) (sh : Bool) (es : List Enemy)
    (v : Ev) (hv : v ∈ (contactPhase px py sh es).evs) :
    v = Ev.contactKill ∨ v = Ev.gameOver := by
  induction es generalizing sh with
  | nil => simp [contactPhase] at hv
  | cons e rest ih =>
      unfold contactPhase at hv
      by_cases h1 : circleHitsPlayerRect px py e.x e.y e.r
      · rw [if_pos h1] at hv
        by_cases h2 : sh = true
        · rw [if_pos h2] at hv
          simp only [List.mem_cons] at hv
          rcases hv with h | h
          · exact Or.inl h
          · exact ih false h
        · rw [if_neg h2] at hv
          simp at hv
          exact Or.inr hv
      · rw [if_neg h1] at hv
        exact ih sh hv

theorem collectPhase_evs_mem (px py : ℚ) (eff : EffSt) (ps : List PowerUp)
    (v : Ev) (hv : v ∈ (collectPhase px py eff ps).2.2) :
    v = Ev.powerupCollected := by
  induction ps generalizing eff with
  | nil => simp [collectPhase] at hv
  | cons p rest ih =>
      unfold collectPhase at hv
      by_cases h1 : powerupHitsPlayer px py p
      · rw [if_pos h1] at hv
        simp only [List.mem_cons] at hv
        rcases hv with h | h
        · exact h
        · exact ih _ h
      · rw [if_neg h1] at hv
        exact ih eff hv

/-! ### The enemy-bullet death branch, characterized -/

theorem ebPlayerPhase_died_removes (px py : ℚ) (sh : Bool)
    (ebs : List EnemyBullet)
    (h : (ebPlayerPhase px py sh ebs).died = true) :
    (ebPlayerPhase px py sh ebs).ebs.length < ebs.length := by
  induction ebs generalizing sh with
  | nil => simp [ebPlayerPhase] at h
  | cons eb rest ih =>
      unfold ebPlayerPhase at h ⊢
      by_cases h1 : circleHitsPlayerRect px py eb.x eb.y eb.r
      · rw [if_pos h1] at h ⊢
        by_cases h2 : sh = true
        · rw [if_pos h2] at h ⊢
          simpa using Nat.lt_succ_of_lt (ih false h)
        · rw [if_neg h2]
          simp
      · rw [if_neg h1] at h ⊢
        simpa using Nat.succ_lt_succ (ih sh h)

theorem ebPlayerPhase_died_one_terminal (px py : ℚ) (sh : Bool)
    (ebs : List EnemyBullet)
    (h : (ebPlayerPhase px py sh ebs).died = true) :
    (ebPlayerPhase px py sh ebs).evs.count Ev.gameOver = 1 := by
  induction ebs generalizing sh with
  | nil => simp [ebPlayerPhase] at h
  | cons eb rest ih =>
      unfold ebPlayerPhase at h ⊢
      by_cases h1 : circleHitsPlayerRect px py eb.x eb.y eb.r
      · rw [if_pos h1] at h ⊢
        by_cases h2 : sh = true
        · rw [if_pos h2] at h ⊢
          simpa using ih false h
        · rw [if_neg h2]
          simp
      · rw [if_neg h1] at h ⊢
        exact ih sh h

/-! ### Reduction lemmas for the frame step -/

theorem update_run (mo : MathOracle) (s : GameState) (dt : ℚ) (src : List ℚ)
    (hr : s.running = true) (hg : s.game_over = false) :
    update mo s dt src = updateCore mo s dt src := by
  unfold update
  rw [if_neg (by simp [hr]), if_neg (by simp [hg])]

theorem updateCore_died1 (mo : MathOracle) (s : GameState) (dt : ℚ) (src : List ℚ)
    (hd : (ebPlayerPhase (updateMid mo s dt src).px s.player_y
      (updateMid mo s dt src).eff.shield (updateMid mo s dt src).ebs2).died = true) :
    updateCore mo s dt src = finishDied1 s (updateMid mo s dt src)
      (ebPlayerPhase (updateMid mo s dt src).px s.player_y
        (updateMid mo s dt src).eff.shield (updateMid mo s dt src).ebs2) := by
  unfold updateCore
  rw [if_pos hd]

theorem updateMid_spawnEvs (mo : MathOracle) (s : GameState) (dt : ℚ) (src : List ℚ) :
    (updateMid mo s dt src).spawnEvs =
      if s.boss = none ∧ BOSS_APPEAR_SCORE ≤ s.score then [Ev.bossSpawn] else [] := by
  unfold updateMid
  split <;> rfl

theorem updateMid_spawnEvs_no_gameOver (mo : MathOracle) (s : GameState)
    (dt : ℚ) (src : List ℚ) :
    (updateMid mo s dt src).spawnEvs.count Ev.gameOver = 0 := by
  rw [updateMid_spawnEvs]
  split <;> simp

theorem updateMid_cst_evs_mem (mo : MathOracle) (s : GameState) (dt : ℚ)
    (src : List ℚ) (v : Ev) (hv : v ∈ (updateMid mo s dt src).cst.evs) :
    v = Ev.enemyDestroyed ∨ v = Ev.bossHit ∨ v = Ev.bossDestroyed := by
  have h2 := collideBullets_evs_mem _ _ v hv
  simpa using h2

theorem updateMid_cst_no_gameOver (mo : MathOracle) (s : GameState) (dt : ℚ)
    (src : List ℚ) : (updateMid mo s dt src).cst.evs.count Ev.gameOver = 0 := by
  rw [List.count_eq_zero]
  intro hv
  rcases updateMid_cst_evs_mem mo s dt src _ hv with h | h | h <;> exact Ev.noConfusion h

/-! ### C1: an unshielded enemy-bullet hit is a hard stop -/

/-- C1: when, during an advance call, the enemy-bullets-vs-player loop
finds a bullet overlapping the player rectangle with the shield not
active (the loop's died flag), the whole frame ends in the loop's
early return (game.py line 596): the result is exactly the finishDied1
state — game_over true, running false, the hit bullet removed (the
surviving enemy-bullet list is strictly shorter), the score exactly as
it stood after the bullets collision loop with no passive accrual, and
the enemy-contact, powerup and fall phases never run; exactly one
terminal event is emitted. -/
theorem enemy_bullet_death_hard_stop (mo : MathOracle) (s : GameState)
    (dt : ℚ) (src : List ℚ) (hr : s.running = true) (hg : s.game_over = false)
    (hd : (ebPlayerPhase (updateMid mo s dt src).px s.player_y
      (updateMid mo s dt src).eff.shield (updateMid mo s dt src).ebs2).died = true) :
    update mo s dt src = finishDied1 s (updateMid mo s dt src)
      (ebPlayerPhase (updateMid mo s dt src).px s.player_y
        (updateMid mo s dt src).eff.shield (updateMid mo s dt src).ebs2) ∧
    (update mo s dt src).1.game_over = true ∧
    (update mo s dt src).1.running = false ∧
    (update mo s dt src).1.score = (updateMid mo s dt src).cst.score ∧
    (update mo s dt src).1.enemy_bullets.length < (updateMid mo s dt src).ebs2.length ∧
    (update mo s dt src).2.1.count Ev.gameOver = 1 := by
  have heq : update mo s dt src = finishDied1 s (updateMid mo s dt src)
      (ebPlayerPhase (updateMid mo s dt src).px s.player_y
        (updateMid mo s dt src).eff.shield (updateMid mo s dt src).ebs2) := by
    rw [update_run mo s dt src hr hg, updateCore_died1 mo s dt src hd]
  refine ⟨heq, ?_, ?_, ?_, ?_, ?_⟩ <;> rw [heq]
  · rfl
  · rfl
  · rfl
  · exact ebPlayerPhase_died_removes _ _ _ _ hd
  · show ((updateMid mo s dt src).spawnEvs ++ (updateMid mo s dt src).cst.evs ++
      (ebPlayerPhase (updateMid mo s dt src).px s.player_y
        (updateMid mo s dt src).eff.shield (updateMid mo s dt src).ebs2).evs).count
        Ev.gameOver = 1
    rw [List.count_append, List.count_append,
      updateMid_spawnEvs_no_gameOver, updateMid_cst_no_gameOver,
      ebPlayerPhase_died_one_terminal _ _ _ _ hd]

/-- The witness frame: a fresh state carrying one enemy bullet resting
on the player, advanced with dt = 0. -/
def c1state : GameState :=
  { resetState 0 with enemy_bullets := [{ x := 240, y := 576, dx := 0, dy := 0, r := 5 }] }

theorem enemy_bullet_death_hard_stop_witness :
    update mo0 c1state 0 [] = finishDied1 c1state (updateMid mo0 c1state 0 [])
      (ebPlayerPhase (updateMid mo0 c1state 0 []).px c1state.player_y
        (updateMid mo0 c1state 0 []).eff.shield (updateMid mo0 c1state 0 []).ebs2) ∧
    (update mo0 c1state 0 []).1.game_over = true ∧
    (update mo0 c1state 0 []).1.running = false ∧
    (update mo0 c1state 0 []).1.score = (updateMid mo0 c1state 0 []).cst.score ∧
    (update mo0 c1state 0 []).1.enemy_bullets.length <
      (updateMid mo0 c1state 0 []).ebs2.length ∧
    (update mo0 c1state 0 []).2.1.count Ev.gameOver = 1 :=
  enemy_bullet_death_hard_stop mo0 c1state 0 [] rfl rfl (by with_unfolding_all rfl)

/-! ### C4: bullet-vs-enemy kill scenario, scoring, and the
one-kill-per-bullet rule -/

/-- One bullet iteration destroys at most one enemy, whatever the
state. -/
theorem bulletStep_at_most_one_kill (st : CombatSt) (b : Bullet) :
    st.enemies.length ≤ (bulletStep st b).enemies.length + 1 := by
  unfold bulletStep
  cases hscan : bulletScan b st.enemies with
  | some e =>
      simp only []
      split
      · exact eraseFirstBy_length enemyBeq st.enemies e
      · exact eraseFirstBy_length enemyBeq st.enemies e
  | none =>
      cases hb : st.boss with
      | none => simp
      | some bo =>
          simp only []
          split
          · split <;> simp
          · simp

/-- The bullet of the C4 scenario, at (100, 95). -/
def c4bullet : Bullet := { x := 100, y := 95, dy := -480, w := 4, h := 10 }

/-- The enemy of the C4 scenario, at (100, 100) with radius 10. -/
def c4enemy : Enemy :=
  { x := 100, y := 100, r := 10, speed := 100, kind := .straight,
    spawn_time := 0, can_shoot := false, shoot_timer := 0, shoot_interval := 2 }

/-- A fresh state holding exactly the scenario's bullet and enemy. -/
def c4state : GameState :=
  { resetState 0 with bullets := [c4bullet], enemies := [c4enemy] }

/-- C4: an advance call on the scenario state (bullet at (100,95)
overlapping the enemy at (100,100) of radius 10, no other collision,
dt = 0 so motion leaves the overlap in place) removes both, raises the
score by exactly 10 + int(10) = 20, and emits exactly one
enemy-destroyed event; in general one bullet iteration kills at most
one enemy per frame, the enemy it kills is the first overlapping one
of the scan, and the award is 10 + int(radius). -/
theorem bullet_kills_enemy_scenario :
    (update mo0 c4state 0 [1/2]).1.enemies = [] ∧
    (update mo0 c4state 0 [1/2]).1.bullets = [] ∧
    (update mo0 c4state 0 [1/2]).1.score = c4state.score + 20 ∧
    (update mo0 c4state 0 [1/2]).2.1 = [Ev.enemyDestroyed] ∧
    (∀ st : CombatSt, ∀ b : Bullet,
      st.enemies.length ≤ (bulletStep st b).enemies.length + 1) ∧
    (∀ st : CombatSt, ∀ b : Bullet,
      (bulletScan b st.enemies).elim True fun e =>
        bulletHitsEnemy b e = true ∧
        (bulletStep st b).enemies = eraseFirstBy enemyBeq st.enemies e ∧
        (bulletStep st b).score = st.score + 10 + ((pyInt e.r : ℤ) : ℚ)) := by
  refine ⟨by with_unfolding_all rfl, by with_unfolding_all rfl,
    by with_unfolding_all rfl, by with_unfolding_all rfl,
    bulletStep_at_most_one_kill, ?_⟩
  intro st b
  cases hscan : bulletScan b st.enemies with
  | none => exact trivial
  | some e =>
      have h := bulletStep_kill_branch st b e hscan
      exact ⟨h.1, h.2.1, h.2.2.2.1⟩

theorem bullet_boss_hit_rules_witness :
    (bulletStep c5st c5b).bullets = eraseFirstBy bulletBeq c5st.bullets c5b ∧
    (bulletStep c5st c5b).score = c5st.score + 15 + (if c5bo.hp - 1 ≤ 0 then 200 else 0) ∧
    (bulletStep c5st c5b).boss =
      (if c5bo.hp - 1 ≤ 0 then none else some { c5bo with hp := c5bo.hp - 1 }) ∧
    (bulletStep c5st c5b).evs =
      c5st.evs ++ (if c5bo.hp - 1 ≤ 0 then [.bossHit, .bossDestroyed] else [.bossHit]) ∧
    (c5bo.hp = 1 →
      (bulletStep c5st c5b).score = c5st.score + 215 ∧ (bulletStep c5st c5b).boss = none) :=
  bullet_boss_hit_rules c5st c5b c5bo rfl rfl (by with_unfolding_all rfl)

/-! ### C3: boss creation -/

theorem updateMid_cst_no_bossSpawn (mo : MathOracle) (s : GameState) (dt : ℚ)
    (src : List ℚ) : (updateMid mo s dt src).cst.evs.count Ev.bossSpawn = 0 := by
  rw [List.count_eq_zero]
  intro hv
  rcases updateMid_cst_evs_mem mo s dt src _ hv with h | h | h <;> exact Ev.noConfusion h

theorem ebPlayerPhase_no_bossSpawn (px py : ℚ) (sh : Bool) (ebs : List EnemyBullet) :
    (ebPlayerPhase px py sh ebs).evs.count Ev.bossSpawn = 0 := by
  rw [List.count_eq_zero]
  intro hv
  rcases ebPlayerPhase_evs_mem px py sh ebs _ hv with h | h <;> exact Ev.noConfusion h

theorem contactPhase_no_bossSpawn (px py : ℚ) (sh : Bool) (es : List Enemy) :
    (contactPhase px py sh es).evs.count Ev.bossSpawn = 0 := by
  rw [List.count_eq_zero]
  intro hv
  rcases contactPhase_evs_mem px py sh es _ hv with h | h <;> exact Ev.noConfusion h

theorem collectPhase_no_bossSpawn (px py : ℚ) (eff : EffSt) (ps : List PowerUp) :
    (collectPhase px py eff ps).2.2.count Ev.bossSpawn = 0 := by
  rw [List.count_eq_zero]
  intro hv
  exact Ev.noConfusion (collectPhase_evs_mem px py eff ps _ hv)

/-- The frame body with its let bindings spelled out, for case
splitting. -/
theorem updateCore_eq (mo : MathOracle) (s : GameState) (dt : ℚ) (src : List ℚ) :
    updateCore mo s dt src =
      (if (ebPlayerPhase (updateMid mo s dt src).px s.player_y
          (updateMid mo s dt src).eff.shield (updateMid mo s dt src).ebs2).died then
        finishDied1 s (updateMid mo s dt src)
          (ebPlayerPhase (updateMid mo s dt src).px s.player_y
            (updateMid mo s dt src).eff.shield (updateMid mo s dt src).ebs2)
      else if (contactPhase (updateMid mo s dt src).px s.player_y
          (ebPlayerPhase (updateMid mo s dt src).px s.player_y
            (updateMid mo s dt src).eff.shield (updateMid mo s dt src).ebs2).shield
          (updateMid mo s dt src).cst.enemies).died then
        finishDied2 s (updateMid mo s dt src)
          (ebPlayerPhase (updateMid mo s dt src).px s.player_y
            (updateMid mo s dt src).eff.shield (updateMid mo s dt src).ebs2)
          (contactPhase (updateMid mo s dt src).px s.player_y
            (ebPlayerPhase (updateMid mo s dt src).px s.player_y
              (updateMid mo s dt src).eff.shield (updateMid mo s dt src).ebs2).shield
            (updateMid mo s dt src).cst.enemies)
      else
        finishNorm s dt (updateMid mo s dt src)
          (ebPlayerPhase (updateMid mo s dt src).px s.player_y
            (updateMid mo s dt src).eff.shield (updateMid mo s dt src).ebs2)
          (contactPhase (updateMid mo s dt src).px s.player_y
            (ebPlayerPhase (updateMid mo s dt src).px s.player_y
              (updateMid mo s dt src).eff.shield (updateMid mo s dt src).ebs2).shield
            (updateMid mo s dt src).cst.enemies)) := rfl

/-- On a running frame, the frame's bossSpawn events are exactly those
of the boss-spawn check of lines 432-434: no collision or pickup phase
emits one. -/
theorem update_count_bossSpawn (mo : MathOracle) (s : GameState) (dt : ℚ)
    (src : List ℚ) (hr : s.running = true) (hg : s.game_over = false) :
    (update mo s dt src).2.1.count Ev.bossSpawn =
      (updateMid mo s dt src).spawnEvs.count Ev.bossSpawn := by
  rw [update_run mo s dt src hr hg, updateCore_eq]
  split
  · show ((updateMid mo s dt src).spawnEvs ++ (updateMid mo s dt src).cst.evs ++
      (ebPlayerPhase _ _ _ _).evs).count Ev.bossSpawn = _
    rw [List.count_append, List.count_append, updateMid_cst_no_bossSpawn,
      ebPlayerPhase_no_bossSpawn]
    omega
  · split
    · show ((updateMid mo s dt src).spawnEvs ++ (updateMid mo s dt src).cst.evs ++
        (ebPlayerPhase _ _ _ _).evs ++ (contactPhase _ _ _ _).evs).count Ev.bossSpawn = _
      rw [List.count_append, List.count_append, List.count_append,
        updateMid_cst_no_bossSpawn, ebPlayerPhase_no_bossSpawn, contactPhase_no_bossSpawn]
      omega
    · show ((updateMid mo s dt src).spawnEvs ++ (updateMid mo s dt src).cst.evs ++
        (ebPlayerPhase _ _ _ _).evs ++ (contactPhase _ _ _ _).evs ++
        (collectPhase _ _ _ _).2.2).count Ev.bossSpawn = _
      rw [List.count_append, List.count_append, List.count_append, List.count_append,
        updateMid_cst_no_bossSpawn, ebPlayerPhase_no_bossSpawn, contactPhase_no_bossSpawn,
        collectPhase_no_bossSpawn]
      omega

/-- Any frame whose start state fails the spawn condition of lines
432-434 (a boss already present, or score below the threshold) emits
no boss-spawn event; a halted or game-over frame emits no events at
all. -/
theorem update_bossSpawn_zero (mo : MathOracle) (s : GameState) (dt : ℚ)
    (src : List ℚ) (h : ¬ (s.boss = none ∧ BOSS_APPEAR_SCORE ≤ s.score)) :
    (update mo s dt src).2.1.count Ev.bossSpawn = 0 := by
  by_cases hr : s.running = true
  · by_cases hg : s.game_over = false
    · rw [update_count_bossSpawn mo s dt src hr hg, updateMid_spawnEvs, if_neg h]
      rfl
    · unfold update
      rw [if_neg (by simp [hr]), if_pos (by revert hg; cases s.game_over <;> simp)]
      rfl
  · unfold update
    rw [if_pos (by simp [hr])]
    rfl

/-- C3 amended: on every running advance frame that starts with no
boss and score at or above BOSS_APPEAR_SCORE, exactly one boss-spawn
event is emitted — including frames after a previous boss was
destroyed, so within one game the boss can be created more than once;
and no other frame emits one: a frame that starts with a boss present
emits none (at most one boss ever exists, the state holding a single
optional slot), and a frame that starts with score below the
threshold emits none, so no boss is ever created early. -/
theorem boss_spawn_whenever_eligible (mo : MathOracle) (s : GameState)
    (dt : ℚ) (src : List ℚ) (hr : s.running = true) (hg : s.game_over = false)
    (hb : s.boss = none) (hsc : BOSS_APPEAR_SCORE ≤ s.score) :
    (update mo s dt src).2.1.count Ev.bossSpawn = 1 ∧
    (∀ s2 : GameState, ∀ dt2 : ℚ, ∀ src2 : List ℚ, s2.boss ≠ none →
      (update mo s2 dt2 src2).2.1.count Ev.bossSpawn = 0) ∧
    (∀ s2 : GameState, ∀ dt2 : ℚ, ∀ src2 : List ℚ, s2.score < BOSS_APPEAR_SCORE →
      (update mo s2 dt2 src2).2.1.count Ev.bossSpawn = 0) := by
  refine ⟨?_, ?_, ?_⟩
  · rw [update_count_bossSpawn mo s dt src hr hg, updateMid_spawnEvs,
      if_pos ⟨hb, hsc⟩]
    rfl
  · intro s2 dt2 src2 hb2
    exact update_bossSpawn_zero mo s2 dt2 src2 (fun hc => hb2 hc.1)
  · intro s2 dt2 src2 hsc2
    exact update_bossSpawn_zero mo s2 dt2 src2
      (fun hc => absurd hc.2 (not_le.mpr hsc2))

/-- An eligible state for the witness: fresh but with score 300. -/
def c3w : GameState := { resetState 0 with score := 300 }

theorem boss_spawn_whenever_eligible_witness :
    (update mo0 c3w 0 []).2.1.count Ev.bossSpawn = 1 ∧
    (∀ s2 : GameState, ∀ dt2 : ℚ, ∀ src2 : List ℚ, s2.boss ≠ none →
      (update mo0 s2 dt2 src2).2.1.count Ev.bossSpawn = 0) ∧
    (∀ s2 : GameState, ∀ dt2 : ℚ, ∀ src2 : List ℚ, s2.score < BOSS_APPEAR_SCORE →
      (update mo0 s2 dt2 src2).2.1.count Ev.bossSpawn = 0) :=
  boss_spawn_whenever_eligible mo0 c3w 0 [] rfl rfl rfl
    (by norm_num [BOSS_APPEAR_SCORE, c3w])


/-! ### C3 counterexample: a full game trace in which the boss is
created twice without an intervening reset.  The player boosts the
score with one long frame, shoots a spawned enemy which drops a spread
power-up, collects it, and kills the freshly spawned boss with six
spread volleys while the boss is still descending; on the following
frame score is still over the threshold and no boss exists, so a
second boss is created.  The trace is replayed in four segments
through explicit intermediate states, so each defeq evaluation stays
small. -/

/-- Random draws of a spawn parked away from the action: size 20 at
x = 50, speed 160, straight, no shooting. -/
def parkSrc : List ℚ := [20, 50, 160, 1/10, 9/10, 9/10, 2]

/-- Random draws of the kill-target spawn: size 20 at the player's
column x = 240, speed 70, straight, no shooting. -/
def e2Src : List ℚ := [20, 240, 70, 1/10, 9/10, 9/10, 2]

/-- Segment A: one 33 s frame (score 288), the target spawn, and
16 quarter-second frames while the target descends. -/
def c3opsA : List Op := [.advance 33 parkSrc, .advance (2/5) e2Src]
  ++ List.replicate 16 (Op.advance (1/4) parkSrc)

/-- Segment B: fire and hit the target (dropping the spread power-up),
then four frames in which the boss spawns and the power-up falls to
the player and is collected. -/
def c3opsB : List Op := [.fire, .advance (3/20) [1/100, 7/10],
  .tick (1/4), .advance (1/4) [], .advance (1/4) [], .advance (1/4) [], .advance (1/4) []]

/-- Segment C: six spread volleys (three bullets each) while the boss
descends. -/
def c3opsC : List Op :=
  (List.replicate 6 [Op.fire, Op.tick (11/50), Op.advance (11/50) []]).flatten

/-- Segment D: five more frames during which the eighteen bullets all
hit, the boss dies, and the next frame creates a second boss. -/
def c3opsD : List Op := List.replicate 5 (Op.advance (11/50) [])

/-- The whole trace. -/
def c3ops : List Op := c3opsA ++ (c3opsB ++ (c3opsC ++ c3opsD))

def c3cpA : GameState where
  player_x := 240
  player_y := 576
  player_vx := 0
  keyLeft := false
  keyRight := false
  bullets := []
  bullet_cooldown := 0
  rapid_fire := false
  rapid_fire_timer := 0
  spread := false
  spread_timer := 0
  shield := false
  shield_timer := 0
  enemies := [
      { x := 240, y := (46937/100 : ℚ), r := 10, speed := 70, kind := CatGame.EnemyKind.straight, spawn_time := (167/5 : ℚ), can_shoot := false, shoot_timer := 0, shoot_interval := 2 },
      { x := 50, y := (2792/5 : ℚ), r := 10, speed := 160, kind := CatGame.EnemyKind.straight, spawn_time := (177/5 : ℚ), can_shoot := false, shoot_timer := 0, shoot_interval := 2 },
      { x := 50, y := (12931/30 : ℚ), r := 10, speed := 160, kind := CatGame.EnemyKind.straight, spawn_time := (359/10 : ℚ), can_shoot := false, shoot_timer := 0, shoot_interval := 2 },
      { x := 50, y := 303, r := 10, speed := 160, kind := CatGame.EnemyKind.straight, spawn_time := (182/5 : ℚ), can_shoot := false, shoot_timer := 0, shoot_interval := 2 },
      { x := 50, y := (1743/10 : ℚ), r := 10, speed := 160, kind := CatGame.EnemyKind.straight, spawn_time := (369/10 : ℚ), can_shoot := false, shoot_timer := 0, shoot_interval := 2 },
      { x := 50, y := (674/15 : ℚ), r := 10, speed := 160, kind := CatGame.EnemyKind.straight, spawn_time := (187/5 : ℚ), can_shoot := false, shoot_timer := 0, shoot_interval := 2 }]
  enemy_bullets := []
  powerups := []
  spawn_timer := 0
  spawn_interval := (7/20 : ℚ)
  elapsed := (187/5 : ℚ)
  score := (58141/200 : ℚ)
  running := true
  game_over := false
  boss := none
  highscore := 0

def c3cpB : GameState where
  player_x := 240
  player_y := 576
  player_vx := 0
  keyLeft := false
  keyRight := false
  bullets := []
  bullet_cooldown := 0
  rapid_fire := false
  rapid_fire_timer := 0
  spread := true
  spread_timer := 8
  shield := false
  shield_timer := 0
  enemies := [
      { x := 50, y := (30191/50 : ℚ), r := 10, speed := 160, kind := CatGame.EnemyKind.straight, spawn_time := (182/5 : ℚ), can_shoot := false, shoot_timer := 0, shoot_interval := 2 },
      { x := 50, y := (11878/25 : ℚ), r := 10, speed := 160, kind := CatGame.EnemyKind.straight, spawn_time := (369/10 : ℚ), can_shoot := false, shoot_timer := 0, shoot_interval := 2 },
      { x := 50, y := (51863/150 : ℚ), r := 10, speed := 160, kind := CatGame.EnemyKind.straight, spawn_time := (187/5 : ℚ), can_shoot := false, shoot_timer := 0, shoot_interval := 2 }]
  enemy_bullets := []
  powerups := []
  spawn_timer := (3/20 : ℚ)
  spawn_interval := (7/20 : ℚ)
  elapsed := (771/20 : ℚ)
  score := (512169/1600 : ℚ)
  running := true
  game_over := false
  boss := some { x := 240, y := -40, r := 60, hp := 18, vx := 60, shoot_timer := 0, shoot_interval := 1 }
  highscore := 0

def c3cpC : GameState where
  player_x := 240
  player_y := 576
  player_vx := 0
  keyLeft := false
  keyRight := false
  bullets := [
      { x := 232, y := (708/5 : ℚ), dy := -480, w := 4, h := 10 },
      { x := 240, y := (708/5 : ℚ), dy := -480, w := 4, h := 10 },
      { x := 248, y := (708/5 : ℚ), dy := -480, w := 4, h := 10 },
      { x := 232, y := (1236/5 : ℚ), dy := -480, w := 4, h := 10 },
      { x := 240, y := (1236/5 : ℚ), dy := -480, w := 4, h := 10 },
      { x := 248, y := (1236/5 : ℚ), dy := -480, w := 4, h := 10 },
      { x := 232, y := (1764/5 : ℚ), dy := -480, w := 4, h := 10 },
      { x := 240, y := (1764/5 : ℚ), dy := -480, w := 4, h := 10 },
      { x := 248, y := (1764/5 : ℚ), dy := -480, w := 4, h := 10 },
      { x := 232, y := (2292/5 : ℚ), dy := -480, w := 4, h := 10 },
      { x := 240, y := (2292/5 : ℚ), dy := -480, w := 4, h := 10 },
      { x := 248, y := (2292/5 : ℚ), dy := -480, w := 4, h := 10 }]
  bullet_cooldown := 0
  rapid_fire := false
  rapid_fire_timer := 0
  spread := true
  spread_timer := (167/25 : ℚ)
  shield := false
  shield_timer := 0
  enemies := []
  enemy_bullets := []
  powerups := []
  spawn_timer := (3/20 : ℚ)
  spawn_interval := (7/20 : ℚ)
  elapsed := (3987/100 : ℚ)
  score := (16841233/40000 : ℚ)
  running := true
  game_over := false
  boss := some { x := 240, y := (64/5 : ℚ), r := 60, hp := 12, vx := 60, shoot_timer := 0, shoot_interval := 1 }
  highscore := 0

set_option maxRecDepth 400000 in
theorem c3segA : (runOps mo0 (resetState 0) c3opsA).1 = c3cpA := by
  with_unfolding_all rfl

set_option maxRecDepth 400000 in
theorem c3segAcount : (runOps mo0 (resetState 0) c3opsA).2.count Ev.bossSpawn = 0 := by
  with_unfolding_all rfl

set_option maxRecDepth 400000 in
theorem c3segB : (runOps mo0 c3cpA c3opsB).1 = c3cpB := by
  with_unfolding_all rfl

set_option maxRecDepth 400000 in
theorem c3segBcount : (runOps mo0 c3cpA c3opsB).2.count Ev.bossSpawn = 1 := by
  with_unfolding_all rfl

set_option maxRecDepth 400000 in
theorem c3segC : (runOps mo0 c3cpB c3opsC).1 = c3cpC := by
  with_unfolding_all rfl

set_option maxRecDepth 400000 in
theorem c3segCcount : (runOps mo0 c3cpB c3opsC).2.count Ev.bossSpawn = 0 := by
  with_unfolding_all rfl

set_option maxRecDepth 400000 in
theorem c3segDcount : (runOps mo0 c3cpC c3opsD).2.count Ev.bossSpawn = 1 := by
  with_unfolding_all rfl

/-- C3 counterexample: along the concrete trace c3ops — a single game,
no reset anywhere, every dt non-negative — the boss-spawn event of
Game.spawn_boss fires twice: once when the score first reaches the
threshold, and once more on the frame after the first boss is shot
down, because the spawn condition (no boss and score at or above the
threshold) holds again.  This refutes the claim that within one game
the boss is created exactly once and never again afterwards. -/
theorem boss_created_twice_in_one_game :
    (runOps mo0 (resetState 0) c3ops).2.count Ev.bossSpawn = 2 ∧
    c3ops.any isReset = false ∧ OpsOK c3ops := by
  refine ⟨?_, by with_unfolding_all rfl, of_decide_eq_true (by with_unfolding_all rfl)⟩
  show (runOps mo0 (resetState 0)
    (c3opsA ++ (c3opsB ++ (c3opsC ++ c3opsD)))).2.count Ev.bossSpawn = 2
  rw [runOps_append, List.count_append, c3segA, c3segAcount,
    runOps_append, List.count_append, c3segB, c3segBcount,
    runOps_append, List.count_append, c3segC, c3segCcount, c3segDcount]

/-! ### C8: the player never leaves the horizontal play band -/

theorem clamp_bounds (v a b : ℚ) (hab : a ≤ b) :
    a ≤ clamp v a b ∧ clamp v a b ≤ b :=
  ⟨le_max_left a _, max_le hab (min_le_left b v)⟩

theorem fire_player_x (s : GameState) : (fire_bullet s).1.player_x = s.player_x := by
  unfold fire_bullet
  split <;> rfl

theorem update_player_x_cases (mo : MathOracle) (s : GameState) (dt : ℚ)
    (src : List ℚ) :
    (update mo s dt src).1.player_x = s.player_x ∨
    (update mo s dt src).1.player_x =
      clamp (s.player_x + (updateMid mo s dt src).vx * dt)
        (PLAYER_W / 2) (SCREEN_W - PLAYER_W / 2) := by
  unfold update
  split
  · exact Or.inl rfl
  split
  · exact Or.inl rfl
  rw [updateCore_eq]
  split
  · exact Or.inr rfl
  split
  · exact Or.inr rfl
  · exact Or.inr rfl

/-- C8: starting from a freshly reset state, after any sequence of
operations whose time deltas are non-negative, the player's x position
lies within [PLAYER_W/2, SCREEN_W - PLAYER_W/2]: every running frame
ends by clamping it there (game.py line 440), no other operation moves
it, and reset recenters it. -/
theorem player_x_in_bounds (mo : MathOracle) (hs : ℚ) (ops : List Op)
    (hok : OpsOK ops) :
    PLAYER_W / 2 ≤ (runOps mo (resetState hs) ops).1.player_x ∧
    (runOps mo (resetState hs) ops).1.player_x ≤ SCREEN_W - PLAYER_W / 2 := by
  refine runOps_invariant
    (fun s => PLAYER_W / 2 ≤ s.player_x ∧ s.player_x ≤ SCREEN_W - PLAYER_W / 2)
    mo ?_ ops (resetState hs) ?_ hok
  · intro s op hop hP
    cases op with
    | advance dt src =>
        show PLAYER_W / 2 ≤ (update mo s dt src).1.player_x ∧
          (update mo s dt src).1.player_x ≤ SCREEN_W - PLAYER_W / 2
        rcases update_player_x_cases mo s dt src with h | h
        · rw [h]
          exact hP
        · rw [h]
          exact clamp_bounds _ _ _ (by norm_num [PLAYER_W, SCREEN_W])
    | fire =>
        show PLAYER_W / 2 ≤ (fire_bullet s).1.player_x ∧
          (fire_bullet s).1.player_x ≤ SCREEN_W - PLAYER_W / 2
        rw [fire_player_x]
        exact hP
    | tick dt => exact hP
    | setKeys l r => exact hP
    | reset hs2 =>
        show PLAYER_W / 2 ≤ (resetState hs2).player_x ∧
          (resetState hs2).player_x ≤ SCREEN_W - PLAYER_W / 2
        norm_num [resetState, PLAYER_W, SCREEN_W, PLAYER_Y, SCREEN_H]
  · norm_num [resetState, PLAYER_W, SCREEN_W, PLAYER_Y, SCREEN_H]

theorem player_x_in_bounds_witness :
    PLAYER_W / 2 ≤ (runOps mo0 (resetState 0) [.advance 1 []]).1.player_x ∧
    (runOps mo0 (resetState 0) [.advance 1 []]).1.player_x ≤ SCREEN_W - PLAYER_W / 2 :=
  player_x_in_bounds mo0 0 [.advance 1 []]
    (fun op hop => by simp at hop; rw [hop]; show (0:ℚ) ≤ 1; norm_num)

/-! ### C7: spawn interval formula, monotonicity, difficulty ramp -/

theorem spawnBlock_interval (s : GameState) (dt : ℚ) (src : List ℚ) :
    (spawnBlock s dt src).2.1 =
      if s.boss = none ∧ s.score < BOSS_APPEAR_SCORE
      then spawnIntervalFormula (s.elapsed + dt) else s.spawn_interval := by
  unfold spawnBlock
  split
  · dsimp only
    split <;> rfl
  · rfl

theorem update_spawn_elapsed (mo : MathOracle) (s : GameState) (dt : ℚ)
    (src : List ℚ) (hr : s.running = true) (hg : s.game_over = false) :
    (update mo s dt src).1.spawn_interval =
      (if s.boss = none ∧ s.score < BOSS_APPEAR_SCORE
       then spawnIntervalFormula (s.elapsed + dt) else s.spawn_interval) ∧
    (update mo s dt src).1.elapsed = s.elapsed + dt := by
  have hI : (updateMid mo s dt src).spawnI = (spawnBlock s dt src).2.1 := rfl
  have hE : (updateMid mo s dt src).elapsed = s.elapsed + dt := rfl
  rw [update_run mo s dt src hr hg, updateCore_eq]
  split
  · exact ⟨by rw [show (finishDied1 s (updateMid mo s dt src) _).1.spawn_interval =
      (updateMid mo s dt src).spawnI from rfl, hI, spawnBlock_interval], hE⟩
  split
  · exact ⟨by rw [show (finishDied2 s (updateMid mo s dt src) _ _).1.spawn_interval =
      (updateMid mo s dt src).spawnI from rfl, hI, spawnBlock_interval], hE⟩
  · exact ⟨by rw [show (finishNorm s dt (updateMid mo s dt src) _ _).1.spawn_interval =
      (updateMid mo s dt src).spawnI from rfl, hI, spawnBlock_interval], hE⟩

theorem spawnIntervalFormula_antitone (e1 e2 : ℚ) (h : e1 ≤ e2) :
    spawnIntervalFormula e2 ≤ spawnIntervalFormula e1 := by
  unfold spawnIntervalFormula
  exact max_le_max le_rfl (by linarith)

theorem spawnIntervalFormula_min (e : ℚ) :
    ENEMY_SPAWN_INTERVAL_MIN ≤ spawnIntervalFormula e := le_max_left _ _

/-- The trace invariant behind C7: the stored interval is never below
the formula at the current elapsed time. -/
def SpawnInv (s : GameState) : Prop :=
  spawnIntervalFormula s.elapsed ≤ s.spawn_interval

theorem fire_spawn_fields (s : GameState) :
    (fire_bullet s).1.spawn_interval = s.spawn_interval ∧
    (fire_bullet s).1.elapsed = s.elapsed := by
  unfold fire_bullet
  split <;> exact ⟨rfl, rfl⟩

theorem update_not_running_or_over (mo : MathOracle) (s : GameState) (dt : ℚ)
    (src : List ℚ) (h : ¬ (s.running = true ∧ s.game_over = false)) :
    update mo s dt src = (s, [], src) := by
  unfold update
  by_cases hr : s.running = true
  · by_cases hg : s.game_over = false
    · exact absurd ⟨hr, hg⟩ h
    · rw [if_neg (by simp [hr]), if_pos (by revert hg; cases s.game_over <;> simp)]
  · rw [if_pos (by simp [hr])]

theorem advance_spawnInv (mo : MathOracle) (s : GameState) (dt : ℚ)
    (src : List ℚ) (hdt : 0 ≤ dt) (hP : SpawnInv s) :
    SpawnInv (update mo s dt src).1 ∧
    (update mo s dt src).1.spawn_interval ≤ s.spawn_interval ∧
    s.elapsed ≤ (update mo s dt src).1.elapsed := by
  by_cases hrg : s.running = true ∧ s.game_over = false
  · obtain ⟨hI, hE⟩ := update_spawn_elapsed mo s dt src hrg.1 hrg.2
    unfold SpawnInv at hP ⊢
    rw [hI, hE]
    split
    · exact ⟨le_rfl,
        le_trans (spawnIntervalFormula_antitone _ _ (by linarith)) hP,
        by linarith⟩
    · exact ⟨le_trans (spawnIntervalFormula_antitone _ _ (by linarith)) hP,
        le_rfl, by linarith⟩
  · rw [update_not_running_or_over mo s dt src hrg]
    exact ⟨hP, le_rfl, le_rfl⟩

theorem opStep_spawnInv (mo : MathOracle) (s : GameState) (op : Op)
    (hop : OpOK op) (hP : SpawnInv s) : SpawnInv (applyOp mo s op).1 := by
  cases op with
  | advance dt src => exact (advance_spawnInv mo s dt src hop hP).1
  | fire =>
      show SpawnInv (fire_bullet s).1
      unfold SpawnInv
      rw [(fire_spawn_fields s).1, (fire_spawn_fields s).2]
      exact hP
  | tick dt => exact hP
  | setKeys l r => exact hP
  | reset hs2 =>
      show SpawnInv (resetState hs2)
      unfold SpawnInv spawnIntervalFormula
      norm_num [resetState, ENEMY_SPAWN_INTERVAL_MIN, ENEMY_SPAWN_INTERVAL_START]

theorem runOps_adv_mono (mo : MathOracle) :
    ∀ more : List Op, ∀ s : GameState, SpawnInv s → AdvanceOnly more →
      (runOps mo s more).1.spawn_interval ≤ s.spawn_interval ∧
      s.elapsed ≤ (runOps mo s more).1.elapsed ∧
      SpawnInv (runOps mo s more).1 := by
  intro more
  induction more with
  | nil => exact fun s hP _ => ⟨le_rfl, le_rfl, hP⟩
  | cons op rest ih =>
      intro s hP hadv
      obtain ⟨dt, src, hop, hdt⟩ := hadv op (by simp)
      subst hop
      have hstep := advance_spawnInv mo s dt src hdt hP
      have hrest := ih (update mo s dt src).1 hstep.1
        (fun o ho => hadv o (by simp [ho]))
      refine ⟨le_trans hrest.1 hstep.2.1, le_trans hstep.2.2 hrest.2.1, hrest.2.2⟩

/-- C7: (a) on every advance frame on which enemy spawning is active
(running, not game over, no boss, score below the threshold) the
stored spawn interval is reassigned to exactly
max(ENEMY_SPAWN_INTERVAL_MIN, ENEMY_SPAWN_INTERVAL_START - elapsed/60)
at the post-frame elapsed time; (b) over any further sequence of
advance calls with non-negative dt from any reachable state, the spawn
interval never increases and stays at or above the configured
minimum, and the difficulty multiplier 1 + elapsed/60 never
decreases. -/
theorem spawn_interval_law :
    (∀ (mo : MathOracle) (s : GameState) (dt : ℚ) (src : List ℚ),
      s.running = true → s.game_over = false → s.boss = none →
      s.score < BOSS_APPEAR_SCORE →
      (update mo s dt src).1.spawn_interval = spawnIntervalFormula (s.elapsed + dt)) ∧
    (∀ (mo : MathOracle) (hs : ℚ) (ops more : List Op),
      OpsOK ops → AdvanceOnly more →
      (runOps mo (runOps mo (resetState hs) ops).1 more).1.spawn_interval ≤
        (runOps mo (resetState hs) ops).1.spawn_interval ∧
      ENEMY_SPAWN_INTERVAL_MIN ≤
        (runOps mo (runOps mo (resetState hs) ops).1 more).1.spawn_interval ∧
      difficulty_mul ((runOps mo (resetState hs) ops).1.elapsed) ≤
        difficulty_mul ((runOps mo (runOps mo (resetState hs) ops).1 more).1.elapsed)) := by
  constructor
  · intro mo s dt src hr hg hb hsc
    rw [(update_spawn_elapsed mo s dt src hr hg).1, if_pos ⟨hb, hsc⟩]
  · intro mo hs ops more hok hadv
    have hQ0 : SpawnInv (resetState hs) := by
      unfold SpawnInv spawnIntervalFormula
      norm_num [resetState, ENEMY_SPAWN_INTERVAL_MIN, ENEMY_SPAWN_INTERVAL_START]
    have hQ : SpawnInv (runOps mo (resetState hs) ops).1 :=
      runOps_invariant SpawnInv mo (opStep_spawnInv mo) ops (resetState hs) hQ0 hok
    have hm := runOps_adv_mono mo more (runOps mo (resetState hs) ops).1 hQ hadv
    refine ⟨hm.1, le_trans (spawnIntervalFormula_min _) hm.2.2, ?_⟩
    unfold difficulty_mul
    have := hm.2.1
    linarith

/-! ### C6: the timer invariants of reachable states -/

/-- The active-effect side of the timer invariant: an active flag
implies a strictly positive countdown (equivalently, once a countdown
is at or below zero the effect is off). -/
def EffInv (e : EffSt) : Prop :=
  (e.rapid = true → 0 < e.rapidT) ∧
  (e.spread = true → 0 < e.spreadT) ∧
  (e.shield = true → 0 < e.shieldT)

/-- The per-enemy timer facts. -/
def EnemyTimerP (e : Enemy) : Prop := 0 ≤ e.shoot_timer ∧ 0 < e.shoot_interval

/-- The boss timer facts, on the optional slot. -/
def BossP (ob : Option Boss) : Prop :=
  ∀ b : Boss, ob = some b → 0 ≤ b.shoot_timer ∧ 0 < b.shoot_interval

/-- C6's amended invariant over a whole state: spawn timer, fire
cooldown, enemy shoot timers and boss shoot timer non-negative; spawn
interval at or above the configured minimum; shoot intervals strictly
positive; and every active effect has a strictly positive countdown. -/
def TimersInv (s : GameState) : Prop :=
  0 ≤ s.spawn_timer ∧
  ENEMY_SPAWN_INTERVAL_MIN ≤ s.spawn_interval ∧
  0 ≤ s.bullet_cooldown ∧
  (∀ e ∈ s.enemies, EnemyTimerP e) ∧
  BossP s.boss ∧
  EffInv ⟨s.rapid_fire, s.rapid_fire_timer, s.spread, s.spread_timer,
    s.shield, s.shield_timer⟩

theorem tickEffects_fields (dt : ℚ) (e : EffSt) :
    tickEffects dt e =
      { rapid := if e.rapid then decide (¬ e.rapidT - dt ≤ 0) else e.rapid,
        rapidT := if e.rapid then e.rapidT - dt else e.rapidT,
        spread := if e.spread then decide (¬ e.spreadT - dt ≤ 0) else e.spread,
        spreadT := if e.spread then e.spreadT - dt else e.spreadT,
        shield := if e.shield then decide (¬ e.shieldT - dt ≤ 0) else e.shield,
        shieldT := if e.shield then e.shieldT - dt else e.shieldT } := by
  obtain ⟨r, rt, sp, spt, sh, sht⟩ := e
  cases r <;> cases sp <;> cases sh <;> simp [tickEffects]

theorem tickEffects_effInv (dt : ℚ) (e : EffSt) :
    EffInv (tickEffects dt e) := by
  rw [tickEffects_fields]
  refine ⟨?_, ?_, ?_⟩
  · show (if e.rapid then decide (¬ e.rapidT - dt ≤ 0) else e.rapid) = true →
      0 < (if e.rapid then e.rapidT - dt else e.rapidT)
    intro hflag
    by_cases hr : e.rapid = true
    · rw [if_pos hr] at hflag ⊢
      exact lt_of_not_le (of_decide_eq_true hflag)
    · rw [if_neg hr] at hflag
      exact absurd hflag hr
  · show (if e.spread then decide (¬ e.spreadT - dt ≤ 0) else e.spread) = true →
      0 < (if e.spread then e.spreadT - dt else e.spreadT)
    intro hflag
    by_cases hr : e.spread = true
    · rw [if_pos hr] at hflag ⊢
      exact lt_of_not_le (of_decide_eq_true hflag)
    · rw [if_neg hr] at hflag
      exact absurd hflag hr
  · show (if e.shield then decide (¬ e.shieldT - dt ≤ 0) else e.shield) = true →
      0 < (if e.shield then e.shieldT - dt else e.shieldT)
    intro hflag
    by_cases hr : e.shield = true
    · rw [if_pos hr] at hflag ⊢
      exact lt_of_not_le (of_decide_eq_true hflag)
    · rw [if_neg hr] at hflag
      exact absurd hflag hr

theorem collectPhase_effInv (px py : ℚ) (eff : EffSt) (ps : List PowerUp)
    (h : EffInv eff) : EffInv (collectPhase px py eff ps).2.1 := by
  induction ps generalizing eff with
  | nil => exact h
  | cons p rest ih =>
      unfold collectPhase
      by_cases h1 : powerupHitsPlayer px py p
      · rw [if_pos h1]
        dsimp only
        apply ih
        cases hk : p.kind <;> simp only [hk]
        · exact ⟨fun _ => by norm_num [POWERUP_DURATION], h.2.1, h.2.2⟩
        · exact ⟨h.1, h.2.1, fun _ => by norm_num [POWERUP_DURATION]⟩
        · exact ⟨h.1, fun _ => by norm_num [POWERUP_DURATION], h.2.2⟩
      · rw [if_neg h1]
        dsimp only
        exact ih eff h

theorem ebPlayerPhase_shield_mono (px py : ℚ) (sh : Bool) (ebs : List EnemyBullet)
    (h : (ebPlayerPhase px py sh ebs).shield = true) : sh = true := by
  induction ebs generalizing sh with
  | nil => exact h
  | cons eb rest ih =>
      unfold ebPlayerPhase at h
      by_cases h1 : circleHitsPlayerRect px py eb.x eb.y eb.r
      · rw [if_pos h1] at h
        by_cases h2 : sh = true
        · exact h2
        · rw [if_neg h2] at h
          exact h
      · rw [if_neg h1] at h
        exact ih sh h

theorem contactPhase_shield_mono (px py : ℚ) (sh : Bool) (es : List Enemy)
    (h : (contactPhase px py sh es).shield = true) : sh = true := by
  induction es generalizing sh with
  | nil => exact h
  | cons e rest ih =>
      unfold contactPhase at h
      by_cases h1 : circleHitsPlayerRect px py e.x e.y e.r
      · rw [if_pos h1] at h
        by_cases h2 : sh = true
        · exact h2
        · rw [if_neg h2] at h
          exact h
      · rw [if_neg h1] at h
        exact ih sh h

theorem eraseFirstBy_subset {α : Type} (eq : α → α → Bool) (l : List α) (a : α) :
    ∀ x ∈ eraseFirstBy eq l a, x ∈ l := by
  induction l with
  | nil => intro x hx; simp [eraseFirstBy] at hx
  | cons y ys ih =>
      intro x hx
      unfold eraseFirstBy at hx
      by_cases he : eq y a = true
      · rw [if_pos he] at hx
        exact List.mem_cons_of_mem y hx
      · rw [if_neg he] at hx
        rcases List.mem_cons.mp hx with h | h
        · exact h ▸ List.mem_cons_self y ys
        · exact List.mem_cons_of_mem y (ih x h)

theorem bulletStep_enemies_subset (st : CombatSt) (b : Bullet) :
    ∀ x ∈ (bulletStep st b).enemies, x ∈ st.enemies := by
  intro x hx
  cases hscan : bulletScan b st.enemies with
  | some e =>
      rw [(bulletStep_kill_branch st b e hscan).2.1] at hx
      exact eraseFirstBy_subset enemyBeq st.enemies e x hx
  | none =>
      cases hb : st.boss with
      | none =>
          rw [bulletStep_no_hit st b hscan (fun bo h => by rw [hb] at h; cases h)] at hx
          exact hx
      | some bo =>
          by_cases hh : bulletHitsBoss b bo = true
          · rw [bulletStep_boss_hit st b bo hb hscan hh] at hx
            split at hx <;> exact hx
          · rw [bulletStep_no_hit st b hscan
              (fun bo2 h2 => by rw [hb] at h2; cases h2; exact hh)] at hx
            exact hx

theorem bulletStep_bossP (st : CombatSt) (b : Bullet) (h : BossP st.boss) :
    BossP (bulletStep st b).boss := by
  cases hscan : bulletScan b st.enemies with
  | some e =>
      rw [(bulletStep_kill_branch st b e hscan).2.2.2.2.2]
      exact h
  | none =>
      cases hb : st.boss with
      | none =>
          rw [bulletStep_no_hit st b hscan (fun bo hbo => by rw [hb] at hbo; cases hbo)]
          exact h
      | some bo =>
          by_cases hh : bulletHitsBoss b bo = true
          · rw [bulletStep_boss_hit st b bo hb hscan hh]
            split
            · intro b2 hb2
              cases hb2
            · intro b2 hb2
              cases hb2
              exact h bo hb
          · rw [bulletStep_no_hit st b hscan
              (fun bo2 h2 => by rw [hb] at h2; cases h2; exact hh)]
            exact h

theorem collideBullets_enemies_subset (snapshot : List Bullet) (st : CombatSt) :
    ∀ x ∈ (collideBullets st snapshot).enemies, x ∈ st.enemies := by
  induction snapshot generalizing st with
  | nil => intro x hx; exact hx
  | cons b rest ih =>
      intro x hx
      exact bulletStep_enemies_subset st b x (ih (bulletStep st b) x hx)

theorem collideBullets_bossP (snapshot : List Bullet) (st : CombatSt)
    (h : BossP st.boss) : BossP (collideBullets st snapshot).boss := by
  induction snapshot generalizing st with
  | nil => exact h
  | cons b rest ih => exact ih (bulletStep st b) (bulletStep_bossP st b h)

theorem contactPhase_enemies_subset (px py : ℚ) (sh : Bool) (es : List Enemy) :
    ∀ x ∈ (contactPhase px py sh es).enemies, x ∈ es := by
  induction es generalizing sh with
  | nil => intro x hx; simp [contactPhase] at hx
  | cons e rest ih =>
      intro x hx
      unfold contactPhase at hx
      by_cases h1 : circleHitsPlayerRect px py e.x e.y e.r
      · rw [if_pos h1] at hx
        by_cases h2 : sh = true
        · rw [if_pos h2] at hx
          exact List.mem_cons_of_mem e (ih false x hx)
        · rw [if_neg h2] at hx
          exact hx
      · rw [if_neg h1] at hx
        rcases List.mem_cons.mp hx with h | h
        · exact h ▸ List.mem_cons_self e rest
        · exact List.mem_cons_of_mem e (ih sh x h)

theorem stepEnemyMotion_timerP (mo : MathOracle) (el mul dt : ℚ) (e : Enemy)
    (h : EnemyTimerP e) : EnemyTimerP (stepEnemyMotion mo el mul dt e) := by
  unfold stepEnemyMotion
  cases hk : e.kind <;> exact h

theorem enemyShoot_timerP (mo : MathOracle) (px py dt : ℚ) (e : Enemy)
    (src : List ℚ) (hdt : 0 ≤ dt) (h : EnemyTimerP e) :
    EnemyTimerP (enemyShoot mo px py dt e src).1 := by
  unfold enemyShoot
  by_cases hc : e.can_shoot = true
  · rw [if_pos hc]
    dsimp only
    by_cases hi : e.shoot_interval ≤ e.shoot_timer + dt
    · rw [if_pos hi]
      exact ⟨le_rfl, h.2⟩
    · rw [if_neg hi]
      exact ⟨show (0:ℚ) ≤ e.shoot_timer + dt by have := h.1; linarith, h.2⟩
  · rw [if_neg hc]
    exact h

theorem moveEnemies_timerP (mo : MathOracle) (px py el mul dt : ℚ) (hdt : 0 ≤ dt) :
    ∀ es : List Enemy, ∀ src : List ℚ, (∀ e ∈ es, EnemyTimerP e) →
      ∀ e2 ∈ (moveEnemies mo px py el mul dt es src).1, EnemyTimerP e2 := by
  intro es
  induction es with
  | nil => intro src h e2 he2; simp [moveEnemies] at he2
  | cons e rest ih =>
      intro src h e2 he2
      unfold moveEnemies at he2
      dsimp only at he2
      have hhd : EnemyTimerP (enemyShoot mo px py dt
          (stepEnemyMotion mo el mul dt e) src).1 :=
        enemyShoot_timerP mo px py dt _ src hdt
          (stepEnemyMotion_timerP mo el mul dt e (h e (by simp)))
      have hrest := ih
        ((enemyShoot mo px py dt (stepEnemyMotion mo el mul dt e) src).2.2)
        (fun e3 he3 => h e3 (by simp [he3]))
      split at he2
      · exact hrest e2 he2
      · rcases List.mem_cons.mp he2 with hh | hh
        · exact hh ▸ hhd
        · exact hrest e2 hh

theorem moveBoss_timers (mo : MathOracle) (dt : ℚ) (b : Boss) (hdt : 0 ≤ dt)
    (h : 0 ≤ b.shoot_timer ∧ 0 < b.shoot_interval) :
    0 ≤ (moveBoss mo dt b).1.shoot_timer ∧ 0 < (moveBoss mo dt b).1.shoot_interval := by
  unfold moveBoss
  by_cases hy : b.y < 80
  · rw [if_pos hy]
    exact h
  · rw [if_neg hy]
    dsimp only
    by_cases hi : b.shoot_interval ≤ b.shoot_timer + dt
    · rw [if_pos hi]
      exact ⟨le_rfl, h.2⟩
    · rw [if_neg hi]
      exact ⟨show (0:ℚ) ≤ b.shoot_timer + dt by have := h.1; linarith, h.2⟩

theorem spawn_enemy_timerP (elapsed : ℚ) (src : List ℚ) :
    EnemyTimerP (spawn_enemy elapsed src).1 := by
  refine ⟨le_rfl, ?_⟩
  show (0:ℚ) < clamp _ 1 3
  exact lt_of_lt_of_le (by norm_num) (clamp_bounds _ 1 3 (by norm_num)).1

/-- The boss-spawn check of lines 432-434 followed by the boss motion
of lines 517-532, restricted to the boss slot and its fan bullets,
exactly as the frame step performs them. -/
def bossPhase (mo : MathOracle) (s : GameState) (dt : ℚ) :
    Option Boss × List EnemyBullet :=
  let bos :=
    if s.boss = none ∧ BOSS_APPEAR_SCORE ≤ s.score then (some bossInit, [Ev.bossSpawn])
    else (s.boss, ([] : List Ev))
  match bos.1 with
  | none => (none, [])
  | some b => let r := moveBoss mo dt b; (some r.1, r.2)

theorem updateMid_cst_eq (mo : MathOracle) (s : GameState) (dt : ℚ) (src : List ℚ) :
    (updateMid mo s dt src).cst =
      collideBullets
        ⟨moveBullets dt s.bullets,
         (moveEnemies mo (updateMid mo s dt src).px s.player_y (s.elapsed + dt)
            (difficulty_mul (s.elapsed + dt)) dt
            (spawnBlock s dt src).2.2.1 (spawnBlock s dt src).2.2.2).1,
         (bossPhase mo s dt).1, s.powerups, s.score, [],
         (moveEnemies mo (updateMid mo s dt src).px s.player_y (s.elapsed + dt)
            (difficulty_mul (s.elapsed + dt)) dt
            (spawnBlock s dt src).2.2.1 (spawnBlock s dt src).2.2.2).2.2⟩
        (moveBullets dt s.bullets) := rfl

theorem spawnBlock_timer_nonneg (s : GameState) (dt : ℚ) (src : List ℚ)
    (hdt : 0 ≤ dt) (h : 0 ≤ s.spawn_timer) : 0 ≤ (spawnBlock s dt src).1 := by
  unfold spawnBlock
  split
  · dsimp only
    split
    · exact le_rfl
    · show (0:ℚ) ≤ s.spawn_timer + dt
      linarith
  · exact h

theorem spawnBlock_interval_min (s : GameState) (dt : ℚ) (src : List ℚ)
    (h : ENEMY_SPAWN_INTERVAL_MIN ≤ s.spawn_interval) :
    ENEMY_SPAWN_INTERVAL_MIN ≤ (spawnBlock s dt src).2.1 := by
  rw [spawnBlock_interval]
  split
  · exact spawnIntervalFormula_min _
  · exact h

theorem spawnBlock_enemies_mem (s : GameState) (dt : ℚ) (src : List ℚ)
    (h : ∀ e ∈ s.enemies, EnemyTimerP e) :
    ∀ e ∈ (spawnBlock s dt src).2.2.1, EnemyTimerP e := by
  unfold spawnBlock
  split
  · dsimp only
    split
    · intro e he
      rcases List.mem_append.mp he with h1 | h1
      · exact h e h1
      · have he2 : e = (spawn_enemy (s.elapsed + dt) src).1 := by simpa using h1
        exact he2 ▸ spawn_enemy_timerP _ _
    · exact h
  · exact h

theorem bossPhase_bossP (mo : MathOracle) (s : GameState) (dt : ℚ)
    (hdt : 0 ≤ dt) (h : BossP s.boss) : BossP (bossPhase mo s dt).1 := by
  unfold bossPhase
  dsimp only
  by_cases hc : s.boss = none ∧ BOSS_APPEAR_SCORE ≤ s.score
  · rw [if_pos hc]
    intro b2 hb2
    have hb2' : some (moveBoss mo dt bossInit).1 = some b2 := hb2
    cases hb2'
    exact moveBoss_timers mo dt bossInit hdt ⟨le_rfl, by norm_num [bossInit]⟩
  · rw [if_neg hc]
    cases hsb : s.boss with
    | none =>
        intro b2 hb2
        have hb2' : (none : Option Boss) = some b2 := hb2
        exact Option.noConfusion hb2'
    | some b =>
        intro b2 hb2
        have hb2' : some (moveBoss mo dt b).1 = some b2 := hb2
        cases hb2'
        exact moveBoss_timers mo dt b hdt (h b hsb)

theorem advance_timersInv (mo : MathOracle) (s : GameState) (dt : ℚ)
    (src : List ℚ) (hdt : 0 ≤ dt) (hP : TimersInv s) :
    TimersInv (update mo s dt src).1 := by
  by_cases hrg : s.running = true ∧ s.game_over = false
  case neg =>
    rw [update_not_running_or_over mo s dt src hrg]
    exact hP
  case pos =>
  obtain ⟨h1, h2, h3, h4, h5, h6⟩ := hP
  have hT : 0 ≤ (updateMid mo s dt src).spawnT := by
    have he : (updateMid mo s dt src).spawnT = (spawnBlock s dt src).1 := rfl
    rw [he]
    exact spawnBlock_timer_nonneg s dt src hdt h1
  have hI : ENEMY_SPAWN_INTERVAL_MIN ≤ (updateMid mo s dt src).spawnI := by
    have he : (updateMid mo s dt src).spawnI = (spawnBlock s dt src).2.1 := rfl
    rw [he]
    exact spawnBlock_interval_min s dt src h2
  have hE : EffInv (updateMid mo s dt src).eff := by
    have he : (updateMid mo s dt src).eff = tickEffects dt
        ⟨s.rapid_fire, s.rapid_fire_timer, s.spread, s.spread_timer,
         s.shield, s.shield_timer⟩ := rfl
    rw [he]
    exact tickEffects_effInv dt _
  have hEn : ∀ x ∈ (updateMid mo s dt src).cst.enemies, EnemyTimerP x := by
    rw [updateMid_cst_eq]
    intro x hx
    exact moveEnemies_timerP mo ((updateMid mo s dt src).px) s.player_y
      (s.elapsed + dt) (difficulty_mul (s.elapsed + dt)) dt hdt
      ((spawnBlock s dt src).2.2.1) ((spawnBlock s dt src).2.2.2)
      (spawnBlock_enemies_mem s dt src h4) x
      (collideBullets_enemies_subset (moveBullets dt s.bullets) _ x hx)
  have hBo : BossP (updateMid mo s dt src).cst.boss := by
    rw [updateMid_cst_eq]
    exact collideBullets_bossP (moveBullets dt s.bullets) _
      (bossPhase_bossP mo s dt hdt h5)
  rw [update_run mo s dt src hrg.1 hrg.2, updateCore_eq]
  split
  · exact ⟨hT, hI, h3, hEn, hBo, hE.1, hE.2.1,
      fun hsh => hE.2.2 (ebPlayerPhase_shield_mono _ _ _ _ hsh)⟩
  split
  · exact ⟨hT, hI, h3,
      fun x hx => hEn x (contactPhase_enemies_subset _ _ _ _ x hx), hBo,
      hE.1, hE.2.1,
      fun hsh => hE.2.2 (ebPlayerPhase_shield_mono _ _ _ _
        (contactPhase_shield_mono _ _ _ _ hsh))⟩
  · exact ⟨hT, hI, h3,
      fun x hx => hEn x (contactPhase_enemies_subset _ _ _ _ x hx), hBo,
      collectPhase_effInv _ _ _ _
        ⟨hE.1, hE.2.1,
         fun hsh => hE.2.2 (ebPlayerPhase_shield_mono _ _ _ _
           (contactPhase_shield_mono _ _ _ _ hsh))⟩⟩

theorem resetState_timersInv (hs : ℚ) : TimersInv (resetState hs) := by
  refine ⟨le_rfl, ?_, le_rfl, ?_, ?_, ?_, ?_, ?_⟩
  · norm_num [resetState, ENEMY_SPAWN_INTERVAL_MIN, ENEMY_SPAWN_INTERVAL_START]
  · intro e he
    exact absurd he (List.not_mem_nil e)
  · intro b hb
    exact Option.noConfusion hb
  · intro h
    exact Bool.noConfusion h
  · intro h
    exact Bool.noConfusion h
  · intro h
    exact Bool.noConfusion h

theorem opStep_timersInv (mo : MathOracle) (s : GameState) (op : Op)
    (hop : OpOK op) (hP : TimersInv s) : TimersInv (applyOp mo s op).1 := by
  cases op with
  | advance dt src => exact advance_timersInv mo s dt src hop hP
  | fire =>
      obtain ⟨h1, h2, h3, h4, h5, h6⟩ := hP
      show TimersInv (fire_bullet s).1
      unfold fire_bullet
      split
      · exact ⟨h1, h2, h3, h4, h5, h6⟩
      · refine ⟨h1, h2, ?_, h4, h5, h6⟩
        show (0:ℚ) ≤ PLAYER_COOLDOWN * (if s.rapid_fire then 2/5 else 1)
        split <;> norm_num [PLAYER_COOLDOWN]
  | tick dt =>
      obtain ⟨h1, h2, h3, h4, h5, h6⟩ := hP
      show TimersInv (tickCooldown s dt)
      refine ⟨h1, h2, ?_, h4, h5, h6⟩
      show (0:ℚ) ≤ max 0 (s.bullet_cooldown - dt)
      exact le_max_left _ _
  | setKeys l r =>
      obtain ⟨h1, h2, h3, h4, h5, h6⟩ := hP
      exact ⟨h1, h2, h3, h4, h5, h6⟩
  | reset hs2 =>
      show TimersInv (resetState hs2)
      exact resetState_timersInv hs2

/-- C6 amended: in every state reachable from a fresh game by any
sequence of advance, fire, cooldown-tick, key and reset operations
with non-negative dt, the spawn timer and the fire cooldown are
non-negative, the spawn interval is at or above the configured
minimum, every enemy's shoot timer is non-negative with a strictly
positive shoot interval, the boss's likewise when present, and every
ACTIVE effect flag (rapid fire, spread, shield) has a strictly
positive countdown — equivalently, once a countdown reaches zero the
flag is off.  The countdowns themselves, however, are NOT all
non-negative: the stored effect timers keep decrementing past zero
(see the counterexample), so the invariant holds only in this amended
form. -/
theorem timers_invariant (mo : MathOracle) (hs : ℚ) (ops : List Op)
    (hok : OpsOK ops) : TimersInv (runOps mo (resetState hs) ops).1 :=
  runOps_invariant TimersInv mo (opStep_timersInv mo) ops (resetState hs)
    (resetState_timersInv hs) hok

theorem timers_invariant_witness :
    OpsOK [Op.advance 1 []] ∧
    TimersInv (runOps mo0 (resetState 0) [Op.advance 1 []]).1 :=
  ⟨fun op hop => by simp at hop; rw [hop]; show (0:ℚ) ≤ 1; norm_num,
   timers_invariant mo0 0 [Op.advance 1 []]
     (fun op hop => by simp at hop; rw [hop]; show (0:ℚ) ≤ 1; norm_num)⟩



/-- The tail of the C6 counterexample trace, continuing from the
checkpoint c3cpA: fire at the descending target enemy, a short frame
in which the bullet kills it and the drop roll (1/100) yields a
rapid-fire power-up, then four quarter-second frames during which the
power-up falls to the player and is collected, and one long 10 s frame
that drives the rapid-fire countdown from 8 well below zero. -/
def c6opsR : List Op := [.fire, .advance (3/20) [1/100, 1/5],
  .tick (1/4), .advance (1/4) [], .advance (1/4) [], .advance (1/4) [], .advance (1/4) [],
  .advance 10 []]

/-- The whole C6 counterexample trace from a fresh game. -/
def c6ops : List Op := c3opsA ++ c6opsR

/-- The state at the end of the C6 counterexample trace: the game
still running, the rapid-fire flag dropped, and its countdown at -2. -/
def c6cp : GameState where
  player_x := 240
  player_y := 576
  player_vx := 0
  keyLeft := false
  keyRight := false
  bullets := []
  bullet_cooldown := 0
  rapid_fire := false
  rapid_fire_timer := -2
  spread := false
  spread_timer := 0
  shield := false
  shield_timer := 0
  enemies := []
  enemy_bullets := []
  powerups := []
  spawn_timer := (3/20 : ℚ)
  spawn_interval := (7/20 : ℚ)
  elapsed := (971/20 : ℚ)
  score := (1970707/4800 : ℚ)
  running := true
  game_over := false
  boss := some { x := 240, y := 360, r := 60, hp := 18, vx := 60, shoot_timer := 0, shoot_interval := 1 }
  highscore := 0

set_option maxRecDepth 400000 in
theorem c6segR : (runOps mo0 c3cpA c6opsR).1 = c6cp := by
  with_unfolding_all rfl

/-- C6 counterexample: along the concrete trace c6ops — a fresh game,
no reset, every dt non-negative — the rapid-fire countdown ends at -2,
a negative value, while the game is still running and not over (the
source keeps decrementing into the stored timer and only drops the
flag, lines 443-446).  This refutes the claim that all timers are
non-negative in every reachable state. -/
theorem effect_timer_goes_negative :
    (runOps mo0 (resetState 0) c6ops).1.rapid_fire_timer < 0 ∧
    (runOps mo0 (resetState 0) c6ops).1.rapid_fire = false ∧
    (runOps mo0 (resetState 0) c6ops).1.running = true ∧
    (runOps mo0 (resetState 0) c6ops).1.game_over = false ∧
    c6ops.any isReset = false ∧ OpsOK c6ops := by
  have h : (runOps mo0 (resetState 0) c6ops).1 = c6cp := by
    show (runOps mo0 (resetState 0) (c3opsA ++ c6opsR)).1 = c6cp
    rw [runOps_append, c3segA]
    exact c6segR
  rw [h]
  refine ⟨by norm_num [c6cp], rfl, rfl, rfl, by with_unfolding_all rfl,
    of_decide_eq_true (by with_unfolding_all rfl)⟩

theorem spawn_interval_law_witness :
    ((update mo0 (resetState 0) 1 []).1.spawn_interval =
      spawnIntervalFormula ((resetState 0).elapsed + 1)) ∧
    ((runOps mo0 (runOps mo0 (resetState 0) []).1 [.advance 1 []]).1.spawn_interval ≤
      (runOps mo0 (resetState 0) []).1.spawn_interval ∧
     ENEMY_SPAWN_INTERVAL_MIN ≤
      (runOps mo0 (runOps mo0 (resetState 0) []).1 [.advance 1 []]).1.spawn_interval ∧
     difficulty_mul ((runOps mo0 (resetState 0) []).1.elapsed) ≤
      difficulty_mul ((runOps mo0 (runOps mo0 (resetState 0) []).1 [.advance 1 []]).1.elapsed)) :=
  ⟨spawn_interval_law.1 mo0 (resetState 0) 1 [] rfl rfl rfl
    (by norm_num [resetState, BOSS_APPEAR_SCORE]),
   spawn_interval_law.2 mo0 0 [] [.advance 1 []] (fun op hop => by simp at hop)
    (fun op hop => by simp at hop; exact ⟨1, [], hop, by norm_num⟩)⟩

end CatGame
